import Mathlib

/-!
Verification of the colabri-doc collaborative document server.

This file gives a shallow embedding, in Lean, of the parts of the
colabri-doc Rust sources that the verified properties talk about:

* the text-element → CRDT conversion of `src/models/lorodoc.rs`
  (`txtelem_to_loro_doc`, `txtelem_child_to_loro_map`);
* the identity cache of `src/ws/userctx.rs`
  (`parse_principals_from_json`, `get_or_fetch_user_ctx_async`);
* the WebSocket session handlers of `src/ws/wscolab.rs`
  (`on_auth_handshake`, `on_load_document`, `on_save_document`, `on_update`);
* the peer-map annotation step of `src/services/doc_edit_service.rs`
  (`edit_doc`);
* the persistence gateway of `src/db/dbcolab.rs`
  (`insert_doc_stream`, `update_colab_doc`, `load_colab_doc`);
* the admin endpoints of `src/handlers/doc_version.rs` and
  `src/handlers/doc_latest.rs` together with
  `src/services/doc_db_service.rs` (`fetch_doc_snapshot_from_db`).

Machine integers (`u64` peer ids and connection ids, `u32`/`i32` stream
versions) are mapped to `Nat`/`Int`; the modelled paths never overflow.
UUIDs are abstracted to `Nat` keys, and `Uuid::parse_str` to `String.toNat?`
(an injective partial parse, which is all the code relies on).  Rust
`HashMap`s are modelled as association lists whose order stands for the
(unspecified) iteration order.  Byte strings (CBOR blobs) are modelled by
the structured data they encode, with an extra constructor for
undecodable bytes, so serialisation is an injection and deserialisation
is partial, exactly as the code assumes.  The external loro CRDT library
is modelled by a record of the observables the code reads (peer id, oplog
version vector, state version vector, deep value); the effect of
`import_batch`, which is opaque library behaviour, is an explicit input
of the embedding, and a CRDT snapshot is identified with the document it
re-imports to.

The hub / room machinery of the `loro_websocket_server` crate is not part
of this repository's sources; where a property depends on it, the
corresponding step is modelled from the specification and marked
`Modelled from the spec:` in its doc comment.
-/

namespace Colabri

/-! ## Association lists (model of `HashMap` / `moka::sync::Cache`) -/

/-- Association-list lookup: first binding wins (models `HashMap::get`
and cache `get`, up to the iteration/insertion order carried by the
list). -/
def alFind {α β : Type} [DecidableEq α] : List (α × β) → α → Option β
  | [], _ => none
  | (k, v) :: rest, key => if k = key then some v else alFind rest key

/-- Association-list insert with overwrite (models `HashMap::insert` and
cache `insert`): replaces the first binding of the key, or appends a new
binding. -/
def alInsert {α β : Type} [DecidableEq α] : List (α × β) → α → β → List (α × β)
  | [], key, v => [(key, v)]
  | (k, w) :: rest, key, v =>
      if k = key then (k, v) :: rest else (k, w) :: alInsert rest key v

/-! ## Text elements and their CRDT encoding (`src/models/lorodoc.rs`)

The data model comes from `src/models/colabdoc.rs` (`TextElement`,
`TextElementChild`, `TextElementChildrenOrString`); the conversion is
from `src/models/lorodoc.rs` lines 254–352.  The untagged children
payload is embedded with the two shapes the cited conversion matches on
(a list of nested children, or a list of strings); the bare-string shape
declared in `colabdoc.rs` has no arm in the cited conversion, so it lies
outside the convertible model and the parser below rejects it. -/

mutual
inductive TextElementChild : Type where
  | mk (nodeName : String) (attributes : List (String × String))
       (children : TextElementChildrenOrString)
inductive TextElementChildrenOrString : Type where
  | asChildren (cs : List TextElementChild)
  | asStringArray (ss : List String)
end

/-- Document text element (the root shape, whose children are always a
list of `TextElementChild`). -/
structure TextElement where
  nodeName : String
  attributes : List (String × String)
  children : List TextElementChild

/-- Value tree built by the conversion inside a `LoroMap` container:
string values, `LoroText` containers, `LoroList` containers and `LoroMap`
containers, with map entries in insertion order. -/
inductive LVal : Type where
  | str (s : String)
  | text (s : String)
  | list (xs : List LVal)
  | map (kvs : List (String × LVal))

/-- Recursion limit of `txtelem_to_loro_doc` (`MAX_DEPTH`, lorodoc.rs:255). -/
def MAX_DEPTH : Nat := 100

mutual
/-- Embeds `txtelem_child_to_loro_map` (lorodoc.rs:299–352): builds the
`LoroMap` for one child, truncating to a sentinel node once `depth`
reaches `max_depth`. -/
def txtelem_child_to_loro_map (child : TextElementChild)
    (depth max_depth : Nat) : LVal :=
  if depth ≥ max_depth then
    .map [("nodeName", .str "truncated"),
          ("children", .str "[Max depth exceeded]")]
  else
    match child with
    | .mk nodeName attrs children =>
      .map [("nodeName", .str nodeName),
            ("attributes", .map (attrs.map (fun kv => (kv.1, .str kv.2)))),
            ("children",
              match children with
              | .asChildren cs =>
                  .list (txtelem_children_to_loro (cs) (depth + 1) max_depth)
              | .asStringArray ss => .list (ss.map LVal.text))]

/-- Encodes a list of children in order (the `for` loop over
`children_vec` in lorodoc.rs:329–338). -/
def txtelem_children_to_loro (cs : List TextElementChild)
    (depth max_depth : Nat) : List LVal :=
  match cs with
  | [] => []
  | c :: rest =>
      txtelem_child_to_loro_map c depth max_depth ::
        txtelem_children_to_loro rest depth max_depth
end

/-- Embeds `txtelem_to_loro_doc` (lorodoc.rs:254–297): encodes the root
text element; its direct children are encoded at depth 1. -/
def txtelem_to_loro_doc (t : TextElement) : LVal :=
  .map [("nodeName", .str t.nodeName),
        ("attributes", .map (t.attributes.map (fun kv => (kv.1, .str kv.2)))),
        ("children", .list (txtelem_children_to_loro t.children 1 MAX_DEPTH))]

mutual
/-- Reference encoding with no recursion limit: what
`txtelem_child_to_loro_map` computes when the depth guard never fires
(the "normal" encoding of a child). -/
def txtelem_child_unbounded (child : TextElementChild) : LVal :=
  match child with
  | .mk nodeName attrs children =>
    .map [("nodeName", .str nodeName),
          ("attributes", .map (attrs.map (fun kv => (kv.1, .str kv.2)))),
          ("children",
            match children with
            | .asChildren cs => .list (txtelem_children_unbounded cs)
            | .asStringArray ss => .list (ss.map LVal.text))]

/-- Reference encoding of a child list with no recursion limit. -/
def txtelem_children_unbounded (cs : List TextElementChild) : List LVal :=
  match cs with
  | [] => []
  | c :: rest => txtelem_child_unbounded c :: txtelem_children_unbounded rest
end

/-- Reference encoding of a whole text element with no recursion limit. -/
def txtelem_unbounded (t : TextElement) : LVal :=
  .map [("nodeName", .str t.nodeName),
        ("attributes", .map (t.attributes.map (fun kv => (kv.1, .str kv.2)))),
        ("children", .list (txtelem_children_unbounded t.children))]

/-- Sentinel node emitted past the recursion limit (lorodoc.rs:306–310). -/
def truncatedSentinel : LVal :=
  .map [("nodeName", .str "truncated"),
        ("children", .str "[Max depth exceeded]")]

mutual
/-- Height of a child: the number of nested child elements on the longest
purely-element path, the child itself included. -/
def childHeight (c : TextElementChild) : Nat :=
  match c with
  | .mk _ _ children => 1 + childrenHeight children

def childrenHeight (cs : TextElementChildrenOrString) : Nat :=
  match cs with
  | .asChildren l => childListHeight l
  | .asStringArray _ => 0

def childListHeight (l : List TextElementChild) : Nat :=
  match l with
  | [] => 0
  | c :: rest => max (childHeight c) (childListHeight rest)
end

/-- Nesting depth of a text-element tree: elements on the longest path,
the root included. -/
def nestingDepth (t : TextElement) : Nat :=
  1 + childListHeight t.children

/-- Single-chain family of text-element trees: `chainChild n` is a chain
of `n + 1` nested elements. -/
def chainChild : Nat → TextElementChild
  | 0 => .mk "leaf" [] (.asStringArray ["x"])
  | n + 1 => .mk "div" [] (.asChildren [chainChild n])

/-- Root tree over `chainChild`; `nestingDepth (chainTree n) = n + 2`. -/
def chainTree (n : Nat) : TextElement :=
  { nodeName := "root", attributes := [], children := [chainChild n] }

/-! ## JSON values and the identity cache (`src/ws/userctx.rs`) -/

/-- JSON value (model of `serde_json::Value`). -/
inductive JVal : Type where
  | null
  | bool (b : Bool)
  | num (n : Int)
  | str (s : String)
  | arr (xs : List JVal)
  | obj (kvs : List (String × JVal))

/-- Field access on a JSON value (`Value::get(key)`): a field of an
object, `None` on every other shape. -/
def jGet : JVal → String → Option JVal
  | .obj kvs, key => alFind kvs key
  | _, _ => none

/-- Element-wise parse of a string array. -/
def parseStringArrayFrom : List JVal → Option (List String)
  | [] => some []
  | .str s :: rest =>
      match parseStringArrayFrom rest with
      | some l => some (s :: l)
      | none => none
  | _ => none

/-- Deserialisation of a `Vec<String>` from a JSON value
(`serde_json::from_value`): succeeds exactly on an array all of whose
elements are strings. -/
def parseStringArray : JVal → Option (List String)
  | .arr xs => parseStringArrayFrom xs
  | _ => none

/-- Embeds `parse_principals_from_json` (userctx.rs:53–65): take the
`prpls` field if the value is an object carrying one, else the value
itself; parse it as a string array, falling back to the empty list when
the parse fails. -/
def parse_principals_from_json (prpls_json : JVal) : List String :=
  match jGet prpls_json "prpls" with
  | some prpls_val => (parseStringArray prpls_val).getD []
  | none => (parseStringArray prpls_json).getD []

/-- User context (userctx.rs:10–14). -/
structure UserCtx where
  principals : List String
  token_roles : List String
deriving DecidableEq

/-- Identity cache state: uid → user context.  The idle TTL of the moka
cache (5 minutes) is a real-time concern outside this embedding; the
cache is modelled as the map it currently holds. -/
abbrev UserCtxCache := List (String × UserCtx)

/-- Embeds `get_or_fetch_user_ctx_async` (userctx.rs:89–108).  The
outcome of the identity RPC (`fetch_user_prpls_from_service`, including
the client-not-initialized failure) is the explicit input `rpcResult`;
the RPC is only consulted on a cache miss. -/
def get_or_fetch_user_ctx_async (uid : String) (token_roles : List String)
    (rpcResult : Except String JVal) (cache : UserCtxCache) :
    Except String UserCtx × UserCtxCache :=
  match alFind cache uid with
  | some ctx => (.ok ctx, cache)
  | none =>
      match rpcResult with
      | .error e => (.error e, cache)
      | .ok prpls_json =>
          let new_ctx : UserCtx :=
            { principals := parse_principals_from_json prpls_json,
              token_roles := token_roles }
          (.ok new_ctx, alInsert cache uid new_ctx)

/-! ## WebSocket handshake (`src/ws/wscolab.rs` lines 72–204) -/

/-- Connection context (wscolab.rs:169–172 / connctx.rs). -/
structure ConnCtx where
  uid : String
  org_id : String
deriving DecidableEq

/-- Connection-context cache: connection id → connection context. -/
abbrev ConnCtxCache := List (Nat × ConnCtx)

/-- User context as stored by wscolab.rs:161–166 (a bare principal
list). -/
structure WsUserCtx where
  principals : List String
deriving DecidableEq

/-- User cache of wscolab.rs. -/
abbrev WsUserCtxCache := List (String × WsUserCtx)

/-- Handshake request data: target workspace, connection id, and the
cookies parsed from the `Cookie` header. -/
structure HandshakeAuthArgs where
  workspace : String
  conn_id : Nat
  cookies : List (String × String)

/-- Environment of the handshake: the configured JWT secret, the outcome
of HS256 decoding + `sub` extraction for a presented token under that
secret (`none` models any validation failure), whether the app-service
client is initialised, and the outcome of the `get_prpls` identity RPC. -/
structure HandshakeEnv where
  cloud_auth_jwt_secret : Option String
  decodeSub : String → Option String
  clientInitialized : Bool
  get_prpls : String → Except String JVal

/-- Observable outcome of the handshake: the accept/reject decision, the
two caches afterwards, and whether the identity service was consulted and
a token validation was attempted. -/
structure HandshakeResult where
  accept : Bool
  user_cache : WsUserCtxCache
  conn_cache : ConnCtxCache
  identity_called : Bool
  validation_attempted : Bool
deriving DecidableEq

/-- Embeds `on_auth_handshake` (wscolab.rs:72–204): require an
`auth_token` cookie; with a configured secret, validate the token,
resolve principals through the app service, require an organisation
principal (`<org>/u/…` prefix or cloud admin), and record the user and
connection contexts; with no secret configured, skip validation and
accept. -/
def on_auth_handshake (env : HandshakeEnv) (args : HandshakeAuthArgs)
    (user_cache : WsUserCtxCache) (conn_cache : ConnCtxCache) : HandshakeResult :=
  let org_id := args.workspace
  match alFind args.cookies "auth_token" with
  | none => ⟨false, user_cache, conn_cache, false, false⟩
  | some token =>
      match env.cloud_auth_jwt_secret with
      | some _ =>
          match env.decodeSub token with
          | none => ⟨false, user_cache, conn_cache, false, true⟩
          | some uid =>
              if env.clientInitialized then
                match env.get_prpls uid with
                | .error _ => ⟨false, user_cache, conn_cache, true, true⟩
                | .ok prpls_json =>
                    let principals := parse_principals_from_json prpls_json
                    let has_org_principal := principals.any (fun p =>
                      p.startsWith (org_id ++ "/u/") || p == "r/Colabri-CloudAdmin")
                    if has_org_principal then
                      ⟨true,
                       alInsert user_cache uid ⟨principals⟩,
                       alInsert conn_cache args.conn_id ⟨uid, org_id⟩,
                       true, true⟩
                    else ⟨false, user_cache, conn_cache, true, true⟩
              else ⟨false, user_cache, conn_cache, false, true⟩
      | none => ⟨true, user_cache, conn_cache, false, false⟩

/-! ## The CRDT document model and the update handler
(`src/ws/wscolab.rs` lines 590–722) -/

/-- CRDT kind carried by protocol messages (`loro_protocol::CrdtType`);
only the Loro kind is relevant, every other kind is collapsed into
`other`. -/
inductive CrdtTypeM : Type where
  | loro
  | other
deriving DecidableEq

/-- Update status codes returned by the handler
(`loro_protocol::UpdateStatusCode`, restricted to the codes the handler
emits). -/
inductive UpdateStatusCode : Type where
  | ok
  | permissionDenied
  | unknown
deriving DecidableEq

/-- Model of a loro document handle, as the observables the embedded code
reads: the peer id the document produces local edits under, the oplog
version vector, the state version vector, and the deep value. -/
structure LoroDocM where
  peer_id : Nat
  oplog_vv : List (Nat × Nat)
  state_vv : List (Nat × Nat)
  value : JVal

/-- Document context as constructed and used by wscolab.rs (fields of its
`DocContext`: organisation, document id, stream id, peer map, last
updating peer). -/
structure WsDocContext where
  org : String
  doc_id : Nat
  doc_stream_id : Nat
  peer_map : List (Nat × String)
  last_updating_peer : Option Nat
deriving DecidableEq

/-- Arguments of the update handler (`UpdateArgs<DocContext>`); `updates`
are the opaque operation batches. -/
structure UpdateArgs where
  conn_id : Nat
  room : String
  crdt : CrdtTypeM
  updates : List (List Nat)
  ctx : Option WsDocContext
  doc : Option LoroDocM

/-- Return value of the update handler (`UpdatedDoc<DocContext>`). -/
structure UpdatedDoc where
  status : UpdateStatusCode
  ctx : Option WsDocContext
  doc : Option LoroDocM

/-- First peer of the updated version vector whose counter exceeds its
counter in the initial version vector (wscolab.rs:657–666; absent peers
count as 0). -/
def findUpdatingPeer (init_vv : List (Nat × Nat)) : List (Nat × Nat) → Option Nat
  | [] => none
  | (peer_id, updated_version) :: rest =>
      if updated_version > ((alFind init_vv peer_id).getD 0) then some peer_id
      else findUpdatingPeer init_vv rest

/-- Embeds `on_update` (wscolab.rs:590–722).  The handler imports the
batch into the document handle it was given; `imported` is that handle's
state after `import_batch` (opaque library behaviour, hence an input).
The admission decision compares the stored principal of the updating peer
with the principal string `org/u/uid` built from the connection
context. -/
def on_update (conn_cache : ConnCtxCache) (args : UpdateArgs)
    (imported : LoroDocM) : UpdatedDoc :=
  if args.crdt ≠ CrdtTypeM.loro then
    { status := .ok, ctx := args.ctx, doc := none }
  else
    match args.ctx with
    | none => { status := .unknown, ctx := none, doc := none }
    | some doc_ctx =>
        match alFind conn_cache args.conn_id with
        | none => { status := .permissionDenied, ctx := some doc_ctx, doc := none }
        | some conn_ctx =>
            match args.doc with
            | none => { status := .unknown, ctx := some doc_ctx, doc := none }
            | some loro_doc =>
                let init_vv := loro_doc.oplog_vv
                let updated_vv := imported.oplog_vv
                match findUpdatingPeer init_vv updated_vv with
                | none => { status := .ok, ctx := some doc_ctx, doc := some imported }
                | some updating_peer_id =>
                    let allowed_prpl := conn_ctx.org_id ++ "/u/" ++ conn_ctx.uid
                    match alFind doc_ctx.peer_map updating_peer_id with
                    | some found_prpl =>
                        if found_prpl ≠ allowed_prpl then
                          { status := .permissionDenied, ctx := some doc_ctx, doc := none }
                        else
                          { status := .ok,
                            ctx := some { doc_ctx with last_updating_peer := some updating_peer_id },
                            doc := some imported }
                    | none =>
                        let doc_ctx2 :=
                          { doc_ctx with
                              peer_map := alInsert doc_ctx.peer_map updating_peer_id allowed_prpl }
                        { status := .ok,
                          ctx := some { doc_ctx2 with last_updating_peer := some updating_peer_id },
                          doc := some imported }

/-- In-memory room state relevant to the update/save handlers: the live
document and its context. -/
structure RoomM where
  doc : LoroDocM
  ctx : Option WsDocContext

/-- Modelled from the spec: the room-level commit step of the missing
`loro_websocket_server` crate.  The handler runs on a working copy of the
room document; the hub installs the returned document and context when
the handler provides them, otherwise the room keeps its previous state —
"in-flight updates either commit fully … or are rolled back together". -/
def hubApplyUpdate (conn_cache : ConnCtxCache) (room : RoomM)
    (conn_id : Nat) (room_id : String) (crdt : CrdtTypeM)
    (updates : List (List Nat)) (imported : LoroDocM) : RoomM × UpdateStatusCode :=
  let r := on_update conn_cache
    { conn_id := conn_id, room := room_id, crdt := crdt, updates := updates,
      ctx := room.ctx, doc := some room.doc } imported
  ({ doc := match r.doc with | some d => d | none => room.doc,
     ctx := match r.ctx with | some c => some c | none => room.ctx },
   r.status)

/-! ## System edits (`src/services/doc_edit_service.rs`) -/

/-- Document context of `src/ws/docctx.rs` (used by `edit_doc`,
`fetch_doc_snapshot_from_db` and the admin handlers). -/
structure DocContext where
  org : String
  doc_id : Nat
  doc_stream_id : Nat
  doc_version : Int
  doc_owner : String
  peer_map : List (Nat × String)
  last_updating_peer : Option Nat
deriving DecidableEq

/-- Embeds the peer-map annotation step of `edit_doc`
(doc_edit_service.rs:22–32): after a system edit ran under `peer_id`,
bind that peer id to the service principal in the room's context
(`HashMap::insert`, which overwrites any existing binding). -/
def edit_doc_annotate_peer_map (ctx : DocContext) (peer_id : Nat) : DocContext :=
  { ctx with peer_map := alInsert ctx.peer_map peer_id "s/colabri-doc" }

/-! ## Persisted packages and blobs (`src/models/colabdoc.rs`,
`serde_cbor`) -/

/-- Persisted package: CRDT snapshot plus peer-id → principal map
(colabdoc.rs:9–12).  The snapshot bytes are identified with the document
they re-import to. -/
structure ColabPackage where
  snapshot : LoroDocM
  peer_map : List (Nat × String)

/-- Byte blob stored in a stream's `content` column: either the CBOR
encoding of a package, or undecodable bytes. -/
inductive Blob : Type where
  | pkg (p : ColabPackage)
  | junk (n : Nat)

/-- CBOR serialisation (`serde_cbor::to_vec`); total and injective. -/
def serde_cbor_to_vec (p : ColabPackage) : Blob := .pkg p

/-- CBOR deserialisation (`serde_cbor::from_slice`); partial. -/
def serde_cbor_from_slice : Blob → Except String ColabPackage
  | .pkg p => .ok p
  | .junk _ => .error "Failed to deserialize ColabPackage"

/-- Byte length of a blob; the actual length is abstracted (no verified
property reads the `size` column). -/
def blobSize : Blob → Int
  | .pkg _ => 1
  | .junk n => Int.ofNat n

/-! ## The document store (`src/db/dbcolab.rs`) -/

/-- Row of the `documents` table (the columns the embedded queries
read). -/
structure DocRow where
  org : String
  id : Nat
  doc_type : String
  owner : String
  deleted : Bool

/-- Row of the `document_streams` table.  `version` is an `i32` in the
row type (`DocumentStreamRow`), hence `Int`. -/
structure StreamRow where
  org : String
  id : Nat
  name : String
  document : Nat
  version : Int
  content : Option Blob
  size : Int
  updated_by : String
  deleted : Bool

/-- Row of a per-type JSON table (`document_statements` /
`document_sheets`). -/
structure ModelRow where
  org : String
  document : Nat
  json : Option JVal
  synced : Bool
  updated_by : String

/-- The relational store: the four tables plus the id sequence backing
`RETURNING id` on inserts. -/
structure Store where
  documents : List DocRow
  streams : List StreamRow
  statements : List ModelRow
  sheets : List ModelRow
  next_id : Nat

/-- Database error kinds the embedded operations surface
(`sqlx::Error`). -/
inductive SqlxError : Type where
  | rowNotFound
deriving DecidableEq

/-- Embeds `insert_doc_stream` (dbcolab.rs:371–432): inserts a `"main"`
stream at version 1 with the snapshot blob, created/updated by the
service principal, returning the generated id.  The transaction commits
unconditionally. -/
def insert_doc_stream (store : Store) (org : String) (document_id : Nat)
    (snapshot : Blob) : Nat × Store :=
  let id := store.next_id
  let row : StreamRow :=
    { org := org, id := id, name := "main", document := document_id,
      version := 1, content := some snapshot, size := blobSize snapshot,
      updated_by := "s/colabri-doc", deleted := false }
  (id, { store with streams := store.streams ++ [row],
                    next_id := store.next_id + 1 })

/-- Predicate of the stream `UPDATE` in `update_colab_doc`
(dbcolab.rs:491–501): same org, target id, not deleted. -/
def updStreamHit (org : String) (doc_stream_id : Nat) (r : StreamRow) : Bool :=
  r.org == org && r.id == doc_stream_id && !r.deleted

/-- Predicate of the per-type JSON `UPDATE` in `update_colab_doc`
(dbcolab.rs:522–531): same org, target document. -/
def updModelHit (org : String) (doc_id : Nat) (r : ModelRow) : Bool :=
  r.org == org && r.document == doc_id

/-- Row update applied by the per-type JSON `UPDATE`. -/
def applyModelUpd (org : String) (doc_id : Nat) (json : JVal) (by_prpl : String)
    (rows : List ModelRow) : List ModelRow :=
  rows.map (fun r =>
    if updModelHit org doc_id r then
      { r with json := some json, synced := false, updated_by := by_prpl }
    else r)

/-- Embeds `update_colab_doc` (dbcolab.rs:445–564): update the stream row
and the type-specific JSON row inside one transaction.  An unknown
`doc_type` returns before the commit (the transaction rolls back); in
every other case the transaction is committed *before* the row-existence
check, and only then is `RowNotFound` reported when either `UPDATE`
matched no row. -/
def update_colab_doc (store : Store) (org : String) (doc_id : Nat)
    (doc_type : String) (doc_stream_id : Nat) (colab_package_blob : Blob)
    (json : JVal) (by_prpl : String) : Except SqlxError Nat × Store :=
  let streams2 := store.streams.map (fun r =>
    if updStreamHit org doc_stream_id r then
      { r with content := some colab_package_blob,
               size := blobSize colab_package_blob,
               updated_by := by_prpl }
    else r)
  let stream_found := store.streams.any (updStreamHit org doc_stream_id)
  if doc_type ≠ "colab-statement" ∧ doc_type ≠ "colab-sheet" then
    (.error .rowNotFound, store)
  else
    let statements2 :=
      if doc_type = "colab-statement" then
        applyModelUpd org doc_id json by_prpl store.statements
      else store.statements
    let sheets2 :=
      if doc_type = "colab-sheet" then
        applyModelUpd org doc_id json by_prpl store.sheets
      else store.sheets
    let model_found :=
      if doc_type = "colab-statement" then
        store.statements.any (updModelHit org doc_id)
      else store.sheets.any (updModelHit org doc_id)
    let store2 : Store :=
      { store with streams := streams2, statements := statements2,
                   sheets := sheets2 }
    if stream_found then
      if model_found then (.ok doc_stream_id, store2)
      else (.error .rowNotFound, store2)
    else (.error .rowNotFound, store2)

/-- Document row with its JSON model and streams, as returned by
`load_colab_doc` (dbcolab.rs:232–360): the document row if present and
not deleted, the per-type JSON (statements table for `colab-statement`,
sheets table for `colab-sheet`, `NULL` otherwise), and the non-deleted
streams of the document. -/
structure ColabDocument where
  id : Nat
  doc_type : String
  owner : String
  json : Option JVal
  streams : List StreamRow

/-- Embeds `load_colab_doc` (dbcolab.rs:232–360). -/
def load_colab_doc (store : Store) (org : String) (document_id : Nat) :
    Option ColabDocument :=
  match store.documents.find? (fun d => d.org == org && d.id == document_id && !d.deleted) with
  | none => none
  | some d =>
      let json :=
        match d.doc_type with
        | "colab-statement" =>
            (store.statements.find? (fun r => r.document == document_id)).bind (·.json)
        | "colab-sheet" =>
            (store.sheets.find? (fun r => r.document == document_id)).bind (·.json)
        | _ => none
      some { id := d.id, doc_type := d.doc_type, owner := d.owner, json := json,
             streams := store.streams.filter (fun s => s.document == document_id && !s.deleted) }

/-- Modelled from the spec: `load_statement_doc`, called by
`on_load_document` (wscolab.rs:324), is not part of src/ — modelled after
`load_colab_doc` with the JSON taken from the statements table. -/
def load_statement_doc (store : Store) (org : String) (document_id : Nat) :
    Option ColabDocument :=
  match store.documents.find? (fun d => d.org == org && d.id == document_id && !d.deleted) with
  | none => none
  | some d =>
      some { id := d.id, doc_type := d.doc_type, owner := d.owner,
             json := (store.statements.find? (fun r => r.document == document_id)).bind (·.json),
             streams := store.streams.filter (fun s => s.document == document_id && !s.deleted) }

/-! ## The application JSON model (`src/models/colabdoc.rs`) and its parse

The model is embedded with the components the conversions walk: typed
properties, ACL maps (permission → principal list) and the content.  The
`comments` and `approvals` components (all defaulted in the source) sit
outside every verified property; the parser below ignores those fields
and the model does not carry them. -/

/-- Document model kind (`ColabModelType`). -/
inductive ColabModelType : Type where
  | colabStatement
  | colabSheet
deriving DecidableEq

/-- Properties common to both model kinds (`ColabModelProperties`). -/
structure ColabModelProperties where
  model_type : ColabModelType
  content_type : String
  country_codes : Option (List String)
  lang_codes : Option (List String)

/-- ACL map: permission name → ordered list of principals. -/
abbrev AclMap := List (String × List String)

/-- Statement content element (`ColabStatementElement`, restricted to the
text element and the ACLs). -/
structure ColabStatementElement where
  text_element : TextElement
  acls : AclMap

/-- Statement model (`ColabStatementModel`). -/
structure ColabStatementModel where
  properties : ColabModelProperties
  acls : AclMap
  content : List (String × ColabStatementElement)

/-- Valid permission keys (`ColabModelPermission`, kebab-case). -/
def permissionNames : List String :=
  ["view", "edit", "manage", "add-remove", "delete"]

/-- Parse of one ACL entry list. -/
def parseAclEntries : List (String × JVal) → Option AclMap
  | [] => some []
  | (k, v) :: rest =>
      if permissionNames.contains k then
        match parseStringArray v with
        | none => none
        | some prpls =>
            match parseAclEntries rest with
            | none => none
            | some m => some ((k, prpls) :: m)
      else none

/-- Parse of an ACL map with the `deserialize_null_default` behaviour:
a missing or `null` field defaults to the empty map. -/
def parseAclsField (j : JVal) (field : String) : Option AclMap :=
  match jGet j field with
  | none => some []
  | some .null => some []
  | some (.obj kvs) => parseAclEntries kvs
  | some _ => none

/-- Parse of an object whose values are all strings. -/
def parseStringEntries : List (String × JVal) → Option (List (String × String))
  | [] => some []
  | (k, .str s) :: rest =>
      match parseStringEntries rest with
      | none => none
      | some m => some ((k, s) :: m)
  | _ => none

/-- Parse of the `attributes` field: a missing or `null` field defaults
to the empty map; otherwise an object of strings. -/
def parseAttributesField (j : JVal) : Option (List (String × String)) :=
  match jGet j "attributes" with
  | none => some []
  | some .null => some []
  | some (.obj kvs) => parseStringEntries kvs
  | some _ => none

mutual
/-- Size of a JSON value (structural node count), used to provision the
parse fuel. -/
def sizeJ : JVal → Nat
  | .null => 1
  | .bool _ => 1
  | .num _ => 1
  | .str _ => 1
  | .arr xs => 1 + sizeJList xs
  | .obj kvs => 1 + sizeJObj kvs

def sizeJList : List JVal → Nat
  | [] => 1
  | x :: rest => 1 + sizeJ x + sizeJList rest

def sizeJObj : List (String × JVal) → Nat
  | [] => 1
  | (_, v) :: rest => 1 + sizeJ v + sizeJObj rest
end

/-!
The recursive model parsers descend into values produced by map lookup
(`jGet`), which structural recursion cannot follow, so they are indexed
by a fuel argument decremented at every call.  The fuel provisioned at
the entry points (`8 * sizeJ j + 8`) strictly exceeds every possible call
depth, since each recursive call either descends into a subterm of the
original value or consumes a list element.
-/

mutual
/-- Parse of a `TextElementChild`. -/
def parseTextElementChild : Nat → JVal → Option TextElementChild
  | 0, _ => none
  | _ + 1, .null => none
  | _ + 1, .bool _ => none
  | _ + 1, .num _ => none
  | _ + 1, .str _ => none
  | _ + 1, .arr _ => none
  | fuel + 1, .obj kvs =>
      match jGet (.obj kvs) "nodeName" with
      | some (.str n) =>
          match parseAttributesField (.obj kvs) with
          | none => none
          | some attrs =>
              match jGet (.obj kvs) "children" with
              | none => none
              | some ch =>
                  match parseChildrenOrString fuel ch with
                  | none => none
                  | some cs => some (.mk n attrs cs)
      | _ => none

/-- Parse of the untagged children payload: a list of child objects, or a
list of strings (the only shapes the conversion handles). -/
def parseChildrenOrString : Nat → JVal → Option TextElementChildrenOrString
  | 0, _ => none
  | fuel + 1, .arr xs =>
      match parseChildList fuel xs with
      | some cs => some (.asChildren cs)
      | none =>
          match parseStringArrayFrom xs with
          | some ss => some (.asStringArray ss)
          | none => none
  | _ + 1, _ => none

/-- Parse of a list of child objects. -/
def parseChildList : Nat → List JVal → Option (List TextElementChild)
  | 0, _ => none
  | _ + 1, [] => some []
  | fuel + 1, x :: rest =>
      match parseTextElementChild fuel x with
      | none => none
      | some c =>
          match parseChildList fuel rest with
          | none => none
          | some cs => some (c :: cs)
end

/-- Parse of a root `TextElement`: `nodeName` string, defaulted
attributes, and a mandatory array of child objects. -/
def parseTextElement (fuel : Nat) (j : JVal) : Option TextElement :=
  match j with
  | .obj _ =>
      match jGet j "nodeName" with
      | some (.str n) =>
          match parseAttributesField j with
          | none => none
          | some attrs =>
              match jGet j "children" with
              | some (.arr xs) =>
                  match parseChildList fuel xs with
                  | none => none
                  | some cs => some { nodeName := n, attributes := attrs, children := cs }
              | _ => none
      | _ => none
  | _ => none

/-- Parse of an optional string-list field (`Option<Vec<String>>`):
missing or `null` is `none`, anything else must be a string array. -/
def parseOptStringList (j : JVal) (field : String) : Option (Option (List String)) :=
  match jGet j field with
  | none => some none
  | some .null => some none
  | some v =>
      match parseStringArray v with
      | none => none
      | some l => some (some l)

/-- Parse of `ColabModelProperties`. -/
def parseProperties (j : JVal) : Option ColabModelProperties :=
  match j with
  | .obj _ =>
      match jGet j "type" with
      | some (.str t) =>
          match (if t = "colab-statement" then some ColabModelType.colabStatement
                 else if t = "colab-sheet" then some ColabModelType.colabSheet
                 else none) with
          | none => none
          | some mt =>
              match jGet j "contentType" with
              | some (.str ct) =>
                  match parseOptStringList j "countryCodes" with
                  | none => none
                  | some cc =>
                      match parseOptStringList j "langCodes" with
                      | none => none
                      | some lc =>
                          some { model_type := mt, content_type := ct,
                                 country_codes := cc, lang_codes := lc }
              | _ => none
      | _ => none
  | _ => none

/-- Parse of one content entry of a statement model. -/
def parseStatementElement (fuel : Nat) (j : JVal) : Option ColabStatementElement :=
  match j with
  | .obj _ =>
      match jGet j "textElement" with
      | none => none
      | some te =>
          match parseTextElement fuel te with
          | none => none
          | some t =>
              match parseAclsField j "acls" with
              | none => none
              | some acls => some { text_element := t, acls := acls }
  | _ => none

/-- Parse of the statement content map. -/
def parseStatementContent (fuel : Nat) :
    List (String × JVal) → Option (List (String × ColabStatementElement))
  | [] => some []
  | (k, v) :: rest =>
      match parseStatementElement fuel v with
      | none => none
      | some e =>
          match parseStatementContent fuel rest with
          | none => none
          | some m => some ((k, e) :: m)

/-- Parse of a `ColabStatementModel`: mandatory properties and content,
defaulted ACLs. -/
def parseColabStatementModel (fuel : Nat) (j : JVal) : Option ColabStatementModel :=
  match j with
  | .obj _ =>
      match jGet j "properties" with
      | none => none
      | some pj =>
          match parseProperties pj with
          | none => none
          | some props =>
              match parseAclsField j "acls" with
              | none => none
              | some acls =>
                  match jGet j "content" with
                  | some (.obj kvs) =>
                      match parseStatementContent fuel kvs with
                      | none => none
                      | some content =>
                          some { properties := props, acls := acls, content := content }
                  | _ => none
  | _ => none

/-- Sheet grid row (`ColabSheetStatementGridRow`). -/
structure ColabSheetStatementGridRow where
  row_type : String
  statement_ref : Option String
  statement : Option ColabStatementModel

/-- Sheet block (`ColabSheetBlock`, internally tagged by `type`). -/
inductive ColabSheetBlock : Type where
  | text (acls : AclMap) (text_element : TextElement)
  | statementGrid (acls : AclMap) (rows : List ColabSheetStatementGridRow)

/-- Sheet model (`ColabSheetModel`, minus the defaulted approvals). -/
structure ColabSheetModel where
  properties : ColabModelProperties
  acls : AclMap
  content : List ColabSheetBlock

mutual
/-- Parse of one sheet grid row (may carry an inline statement model). -/
def parseGridRow : Nat → JVal → Option ColabSheetStatementGridRow
  | 0, _ => none
  | fuel + 1, j =>
      match j with
      | .obj _ =>
          match jGet j "type" with
          | some (.str t) =>
              match (match jGet j "statementRef" with
                     | none => some none
                     | some .null => some none
                     | some (.str s) => some (some s)
                     | some _ => none) with
              | none => none
              | some sr =>
                  match jGet j "statement" with
                  | none => some { row_type := t, statement_ref := sr, statement := none }
                  | some .null => some { row_type := t, statement_ref := sr, statement := none }
                  | some sj =>
                      match parseColabStatementModel fuel sj with
                      | none => none
                      | some m => some { row_type := t, statement_ref := sr, statement := some m }
          | _ => none
      | _ => none

/-- Parse of a list of sheet grid rows. -/
def parseGridRows : Nat → List JVal → Option (List ColabSheetStatementGridRow)
  | 0, _ => none
  | _ + 1, [] => some []
  | fuel + 1, x :: rest =>
      match parseGridRow fuel x with
      | none => none
      | some r =>
          match parseGridRows fuel rest with
          | none => none
          | some rs => some (r :: rs)

/-- Parse of one sheet block, dispatching on the `type` tag. -/
def parseSheetBlock : Nat → JVal → Option ColabSheetBlock
  | 0, _ => none
  | fuel + 1, j =>
      match j with
      | .obj _ =>
          match jGet j "type" with
          | some (.str "text") =>
              match parseAclsField j "acls" with
              | none => none
              | some acls =>
                  match jGet j "textElement" with
                  | none => none
                  | some te =>
                      match parseTextElement fuel te with
                      | none => none
                      | some t => some (.text acls t)
          | some (.str "statement-grid") =>
              match parseAclsField j "acls" with
              | none => none
              | some acls =>
                  match jGet j "rows" with
                  | some (.arr xs) =>
                      match parseGridRows fuel xs with
                      | none => none
                      | some rows => some (.statementGrid acls rows)
                  | _ => none
          | _ => none
      | _ => none

/-- Parse of the sheet content list. -/
def parseSheetBlocks : Nat → List JVal → Option (List ColabSheetBlock)
  | 0, _ => none
  | _ + 1, [] => some []
  | fuel + 1, x :: rest =>
      match parseSheetBlock fuel x with
      | none => none
      | some b =>
          match parseSheetBlocks fuel rest with
          | none => none
          | some bs => some (b :: bs)
end

/-- Parse of a `ColabSheetModel`. -/
def parseColabSheetModel (fuel : Nat) (j : JVal) : Option ColabSheetModel :=
  match j with
  | .obj _ =>
      match jGet j "properties" with
      | none => none
      | some pj =>
          match parseProperties pj with
          | none => none
          | some props =>
              match parseAclsField j "acls" with
              | none => none
              | some acls =>
                  match jGet j "content" with
                  | some (.arr xs) =>
                      match parseSheetBlocks fuel xs with
                      | none => none
                      | some blocks =>
                          some { properties := props, acls := acls, content := blocks }
                  | _ => none
  | _ => none

/-- Two-kind model (`ColabModel`). -/
inductive ColabModel : Type where
  | statement (m : ColabStatementModel)
  | sheet (m : ColabSheetModel)

/-- Ample fuel for parsing a value: strictly exceeds any possible call
depth of the parsers on `j`. -/
def parseFuel (j : JVal) : Nat := 8 * sizeJ j + 8

/-- Deserialisation of a `ColabStatementModel` from a JSON value
(`serde_json::from_value::<ColabStatementModel>`, wscolab.rs:355). -/
def parse_stmt_model (j : JVal) : Option ColabStatementModel :=
  parseColabStatementModel (parseFuel j) j

/-- Modelled from the spec: `ColabModel` carries no `Deserialize` derive
in src/; per the spec's canonical JSON model, its parse dispatches on
`properties.type` (doc_db_service.rs:83). -/
def parse_colab_model (j : JVal) : Option ColabModel :=
  match jGet j "properties" with
  | none => none
  | some pj =>
      match parseProperties pj with
      | none => none
      | some props =>
          match props.model_type with
          | .colabStatement =>
              match parseColabStatementModel (parseFuel j) j with
              | none => none
              | some m => some (.statement m)
          | .colabSheet =>
              match parseColabSheetModel (parseFuel j) j with
              | none => none
              | some m => some (.sheet m)

/-! ## Model → CRDT conversion (`src/models/lorodoc.rs`) -/

/-- CRDT encoding of an ACL map (the `populate_acls` walk): permission →
`LoroList` of principals. -/
def acls_to_lval (acls : AclMap) : LVal :=
  .map (acls.map (fun kv => (kv.1, .list (kv.2.map LVal.str))))

/-- Value tree built by `stmt_to_loro_doc` (lorodoc.rs:116–212):
`properties`, `acls`, and the per-block content maps (each with its ACLs
and text element; the approvals mirror is not modelled). -/
def stmt_value (m : ColabStatementModel) : LVal :=
  .map [("properties",
          .map [("type", .str "colab-statement"),
                ("contentType", .str m.properties.content_type)]),
        ("acls", acls_to_lval m.acls),
        ("content",
          .map (m.content.map (fun kv =>
            (kv.1, .map [("acls", acls_to_lval kv.2.acls),
                         ("textElement", txtelem_to_loro_doc kv.2.text_element)]))))]

/-- Value tree of one sheet block (`colab_sheet_block_to_loro_map`). -/
def sheet_block_value (b : ColabSheetBlock) : LVal :=
  match b with
  | .text acls t =>
      .map [("type", .str "text"),
            ("acls", acls_to_lval acls),
            ("textElement", txtelem_to_loro_doc t)]
  | .statementGrid acls rows =>
      .map [("type", .str "statement-grid"),
            ("acls", acls_to_lval acls),
            ("rows", .list (rows.map (fun r =>
              .map ([("type", .str r.row_type)]
                ++ (match r.statement_ref with
                    | some s => [("statementRef", .str s)]
                    | none => [])
                ++ (match r.statement with
                    | some m => [("statement", stmt_value m)]
                    | none => [])))))]

/-- Value tree built by `sheet_to_loro_doc` (lorodoc.rs:18–114). -/
def sheet_value (m : ColabSheetModel) : LVal :=
  .map [("properties",
          .map ([("type", .str "colab-sheet"),
                 ("contentType", .str m.properties.content_type)]
            ++ (match m.properties.country_codes with
                | some cc => [("countryCodes", .list (cc.map LVal.str))]
                | none => [])
            ++ (match m.properties.lang_codes with
                | some lc => [("langCodes", .list (lc.map LVal.str))]
                | none => []))),
        ("acls", acls_to_lval m.acls),
        ("content", .list (m.content.map sheet_block_value))]

mutual
/-- JSON projection of a CRDT value tree (`get_deep_value` +
`to_json_value`): text containers flatten to strings. -/
def lvalToJson : LVal → JVal
  | .str s => .str s
  | .text s => .str s
  | .list xs => .arr (lvalListToJson xs)
  | .map kvs => .obj (lvalMapToJson kvs)

def lvalListToJson : List LVal → List JVal
  | [] => []
  | x :: rest => lvalToJson x :: lvalListToJson rest

def lvalMapToJson : List (String × LVal) → List (String × JVal)
  | [] => []
  | (k, v) :: rest => (k, lvalToJson v) :: lvalMapToJson rest
end

/-- Embeds `stmt_to_loro_doc`: a freshly constructed document (random
peer id modelled by the `fresh_peer` input) holding the statement's value
tree; the operation counters of the construction are abstracted to one
op of the fresh peer. -/
def stmt_to_loro_doc (m : ColabStatementModel) (fresh_peer : Nat) : LoroDocM :=
  { peer_id := fresh_peer, oplog_vv := [(fresh_peer, 1)],
    state_vv := [(fresh_peer, 1)], value := lvalToJson (stmt_value m) }

/-- Embeds `sheet_to_loro_doc`. -/
def sheet_to_loro_doc (m : ColabSheetModel) (fresh_peer : Nat) : LoroDocM :=
  { peer_id := fresh_peer, oplog_vv := [(fresh_peer, 1)],
    state_vv := [(fresh_peer, 1)], value := lvalToJson (sheet_value m) }

/-- Embeds `colab_to_loro_doc` (lorodoc.rs:11–16); both conversions
always succeed, so the `Option` is always `some`. -/
def colab_to_loro_doc (m : ColabModel) (fresh_peer : Nat) : Option LoroDocM :=
  match m with
  | .statement sm => some (stmt_to_loro_doc sm fresh_peer)
  | .sheet sh => some (sheet_to_loro_doc sh fresh_peer)

/-! ## Stream selection and room load
(`src/ws/wscolab.rs` lines 299–459, `src/services/doc_db_service.rs`) -/

/-- The selection loop over a document's streams (wscolab.rs:336–348 /
doc_db_service.rs:61–73): keep the `"main"` stream with the greatest
version so far whose content is non-null; `hv` is the running
`highest_version` accumulator (initially −1 in wscolab.rs, 0 in
doc_db_service.rs). -/
def select_main_go : List StreamRow → Option StreamRow → Int → Option StreamRow
  | [], best, _ => best
  | s :: rest, best, hv =>
      if s.name == "main" && decide (s.version > hv) then
        match s.content with
        | some _ => select_main_go rest (some s) s.version
        | none => select_main_go rest best hv
      else select_main_go rest best hv

/-- The versioned selection loop (doc_db_service.rs:48–59): the first
`"main"` stream with exactly the requested version and non-null content
(`break` on the first hit; a content-less hit lets the loop continue). -/
def select_version_stream : List StreamRow → Int → Option StreamRow
  | [], _ => none
  | s :: rest, v =>
      if s.name == "main" && s.version == v then
        match s.content with
        | some _ => some s
        | none => select_version_stream rest v
      else select_version_stream rest v

/-- Digit-list accumulator of `parse_uuid`. -/
def digitsToNat : List Char → Nat → Option Nat
  | [], acc => some acc
  | c :: rest, acc =>
      if c.isDigit then digitsToNat rest (acc * 10 + (c.toNat - 48)) else none

/-- Model of `Uuid::parse_str` over the `Nat`-abstracted uuids: an
injective partial parse (here, of a non-empty digit string), which is all
the handlers rely on. -/
def parse_uuid (s : String) : Option Nat :=
  match s.data with
  | [] => none
  | l => digitsToNat l 0

/-- Return value of the load handler (`LoadedDoc<DocContext>`). -/
structure LoadedDocW where
  snapshot : Option LoroDocM
  ctx : Option WsDocContext

/-- Embeds `on_load_document` (wscolab.rs:299–459): pick the best
`"main"` stream (threshold −1) and decode its package; else synthesize a
document from the statement JSON model, persist it as a new stream, and
seed the peer map with the service principal; else fail.  The stream
insert (`insert_statement_doc_stream`, not in src/) is modelled from the
spec by `insert_doc_stream`.  Uuid parsing is abstracted to `String.toNat?`
and the fresh CRDT peer id is the `fresh_peer` input. -/
def on_load_document (org_id doc_id : String) (fresh_peer : Nat)
    (store : Store) : Except String LoadedDocW × Store :=
  match parse_uuid doc_id with
  | none => (.error "Invalid document UUID", store)
  | some doc_uuid =>
      match load_statement_doc store org_id doc_uuid with
      | none => (.ok { snapshot := none, ctx := none }, store)
      | some doc_data =>
          match select_main_go doc_data.streams none (-1) with
          | some main_stream =>
              match main_stream.content with
              | none => (.error "No content found", store)
              | some bytes =>
                  match serde_cbor_from_slice bytes with
                  | .error _ => (.error "Failed to deserialize ColabPackage", store)
                  | .ok colab_package =>
                      (.ok { snapshot := some colab_package.snapshot,
                             ctx := some { org := org_id, doc_id := doc_uuid,
                                           doc_stream_id := main_stream.id,
                                           peer_map := colab_package.peer_map,
                                           last_updating_peer := none } }, store)
          | none =>
              match doc_data.json with
              | some json_value =>
                  match parse_stmt_model json_value with
                  | none => (.error "Failed to parse JSON", store)
                  | some stmt_model =>
                      let loro_doc := stmt_to_loro_doc stmt_model fresh_peer
                      let snapshot := loro_doc
                      let blob := serde_cbor_to_vec
                        { snapshot := snapshot,
                          peer_map := [(loro_doc.peer_id, "s/colabri-doc")] }
                      let ins := insert_doc_stream store org_id doc_uuid blob
                      (.ok { snapshot := some snapshot,
                             ctx := some { org := org_id, doc_id := doc_uuid,
                                           doc_stream_id := ins.1,
                                           peer_map := [(loro_doc.peer_id, "s/colabri-doc")],
                                           last_updating_peer := some loro_doc.peer_id } },
                       ins.2)
              | none => (.error "No content found", store)

/-- Embeds `fetch_doc_snapshot_from_db` (doc_db_service.rs:9–186): load
the document, pick either the stream of the requested version or the best
stream (threshold 0), decode it; on a miss synthesize from the JSON model
(statement or sheet), persist a fresh version-1 stream, and return the
synthesized snapshot under the requested version number. -/
def fetch_doc_snapshot_from_db (org_id doc_id : String) (version : Option Nat)
    (fresh_peer : Nat) (store : Store) :
    Except String (Option (LoroDocM × DocContext)) × Store :=
  match parse_uuid doc_id with
  | none => (.error "Invalid document UUID", store)
  | some doc_uuid =>
      match load_colab_doc store org_id doc_uuid with
      | none => (.ok none, store)
      | some doc_data =>
          let sel : Option StreamRow × Int :=
            match version with
            | some v => (select_version_stream doc_data.streams (Int.ofNat v), Int.ofNat v)
            | none =>
                match select_main_go doc_data.streams none 0 with
                | some s => (some s, s.version)
                | none => (none, 0)
          match sel.1 with
          | some main_stream =>
              match main_stream.content with
              | none => (.error "No content found", store)
              | some bytes =>
                  match serde_cbor_from_slice bytes with
                  | .error _ => (.error "Failed to deserialize ColabPackage", store)
                  | .ok colab_package =>
                      (.ok (some (colab_package.snapshot,
                        { org := org_id, doc_id := doc_uuid,
                          doc_stream_id := main_stream.id,
                          doc_version := sel.2,
                          doc_owner := doc_data.owner,
                          peer_map := colab_package.peer_map,
                          last_updating_peer := none })), store)
          | none =>
              match doc_data.json with
              | some json_value =>
                  match parse_colab_model json_value with
                  | none => (.error "Failed to parse JSON", store)
                  | some doc_model =>
                      match colab_to_loro_doc doc_model fresh_peer with
                      | none => (.error "Failed to convert ColabModel to LoroDoc", store)
                      | some loro_doc =>
                          let snapshot := loro_doc
                          let peer_map := [(loro_doc.peer_id, "s/colabri-doc")]
                          let blob := serde_cbor_to_vec
                            { snapshot := snapshot, peer_map := peer_map }
                          let ins := insert_doc_stream store org_id doc_uuid blob
                          (.ok (some (snapshot,
                            { org := org_id, doc_id := doc_uuid,
                              doc_stream_id := ins.1,
                              doc_version := sel.2,
                              doc_owner := doc_data.owner,
                              peer_map := peer_map,
                              last_updating_peer := some loro_doc.peer_id })), ins.2)
              | none => (.error "No content found", store)

/-! ## Admin endpoints (`src/handlers/doc_version.rs`,
`src/handlers/doc_latest.rs`, `src/auth/auth.rs`) -/

/-- Error body of the HTTP surface (`ErrorResponse`); `status` carries
the status line, which no verified property reads. -/
structure ErrorResponse where
  code : Nat
  status : String
  error : String
deriving DecidableEq

/-- Embeds `ensure_service` (auth.rs:39–56): the exact service principal,
or cloud admin, else 403. -/
def ensure_service (prpls : List String) (service_name : String) :
    Except ErrorResponse String :=
  let service_prpl := "s/" ++ service_name
  if prpls.any (fun p => p == service_prpl) then .ok service_prpl
  else if prpls.any (fun p => p == "r/Colabri-CloudAdmin") then
    .ok "r/Colabri-CloudAdmin"
  else .error { code := 403, status := "403 Forbidden",
                error := "Service '" ++ service_name ++ "' access denied" }

/-- Output format of the export endpoints. -/
inductive OutputFormat : Type where
  | json
  | binary
  | both
deriving DecidableEq

/-- Embeds `OutputFormat::from_query` (doc_version.rs:20–30): a missing,
empty or blank value defaults to JSON; otherwise the trimmed, lowered
value must name a format. -/
def output_format_from_query (format : Option String) : Except String OutputFormat :=
  match format.map (fun s => s.trim) with
  | none => .ok .json
  | some v =>
      if v = "" then .ok .json
      else if v.toLower = "json" then .ok .json
      else if v.toLower = "binary" then .ok .binary
      else if v.toLower = "both" then .ok .both
      else .error ("Invalid output format '" ++ v ++ "'. Use 'json', 'binary', or 'both'.")

/-- Whether the format includes the JSON body. -/
def OutputFormat.include_json : OutputFormat → Bool
  | .json => true
  | .both => true
  | .binary => false

/-- Whether the format includes the binary body. -/
def OutputFormat.include_binary : OutputFormat → Bool
  | .binary => true
  | .both => true
  | .json => false

/-- Open-room state visible to the admin handlers
(`doc_state.doc.get_loro_doc()` and `doc_state.ctx`). -/
structure HubDocState where
  doc : Option LoroDocM
  ctx : Option DocContext

/-- Hub of one organisation: room id → room state (the Loro CRDT kind of
the room key is fixed here, being the only kind the handlers query). -/
abbrev HubM := List (String × HubDocState)

/-- Process-wide registry: organisation → hub. -/
abbrev HubRegistryM := List (String × HubM)

/-- Frontier derived from a version vector (`vv_to_frontiers`); the
frontier representation is abstracted to the vector itself.  The panic
path caught by the handler is not modelled (no verified property reaches
it). -/
def vv_to_frontiers (_doc : LoroDocM) (vv : List (Nat × Nat)) : List (Nat × Nat) := vv

/-- Current state frontier (`state_frontiers`). -/
def state_frontiers (doc : LoroDocM) : List (Nat × Nat) := doc.state_vv

/-- Checkout of a document handle to a frontier (`checkout`): the state
moves to the frontier, the oplog is untouched.  The deep value at an
older frontier is not modelled pointwise (no verified property reads
it). -/
def loro_checkout (doc : LoroDocM) (frontiers : List (Nat × Nat)) : LoroDocM :=
  { doc with state_vv := frontiers }

/-- State-only export (`export(ExportMode::state_only(f))`), abstracted
to the document clipped at the frontier. -/
def export_state_only (doc : LoroDocM) (f : Option (List (Nat × Nat))) : LoroDocM :=
  match f with
  | some front => { doc with oplog_vv := front, state_vv := front }
  | none => { doc with oplog_vv := doc.state_vv }

/-- JSON serialisation of a version vector (`u64` keys become decimal
strings). -/
def jsonOfVV (vv : List (Nat × Nat)) : JVal :=
  .obj (vv.map (fun pc => (toString pc.1, .num (Int.ofNat pc.2))))

/-- JSON serialisation of a peer map. -/
def jsonOfPeerMap (pm : List (Nat × String)) : JVal :=
  .obj (pm.map (fun ps => (toString ps.1, .str ps.2)))

/-- Body of `POST …/version` (`DocumentVersionRequest` plus the `format`
query the handler reads). -/
structure DocumentVersionRequest where
  version : Nat
  version_v : Option (List (Nat × Nat))
  format : Option String

/-- Response of `POST …/version`. -/
structure DocumentVersionResponse where
  json : Option JVal
  binary : Option LoroDocM
  version : Nat
  version_v : JVal
  peer_map : JVal

/-- Response of `GET latest`. -/
structure DocumentLatestResponse where
  json : Option JVal
  binary : Option LoroDocM
  version : Int
  version_v : JVal
  peer_map : JVal

/-- Embeds `build_doc_payload` (doc_latest.rs:165–218). -/
def build_doc_payload (loro_doc : LoroDocM) (peer_map : List (Nat × String))
    (output_format : OutputFormat) :
    Option JVal × Option LoroDocM × JVal × JVal :=
  let json := if output_format.include_json then some loro_doc.value else none
  let state_vv_json := jsonOfVV loro_doc.state_vv
  let peer_map_json := jsonOfPeerMap peer_map
  let binary := if output_format.include_binary
    then some (export_state_only loro_doc none) else none
  (json, binary, state_vv_json, peer_map_json)

/-- Embeds `doc_latest` (doc_latest.rs:47–163): serve from the open room
when present, else from the store via `fetch_doc_snapshot_from_db` with
no version. -/
def doc_latest (registry : HubRegistryM) (prpls : List String)
    (org_id doc_id : String) (format : Option String) (fresh_peer : Nat)
    (store : Store) : Except ErrorResponse DocumentLatestResponse × Store :=
  match output_format_from_query format with
  | .error message =>
      (.error { code := 400, status := "400 Bad Request", error := message }, store)
  | .ok output_format =>
      match ensure_service prpls "colabri-app" with
      | .error e => (.error e, store)
      | .ok _ =>
          match parse_uuid doc_id with
          | none => (.error { code := 400, status := "400 Bad Request",
                              error := "Invalid document UUID '" ++ doc_id ++ "'" }, store)
          | some _doc_uuid =>
              let mem_data :=
                match alFind registry org_id with
                | none => none
                | some hub =>
                    match alFind hub doc_id with
                    | none => none
                    | some doc_state =>
                        match doc_state.doc, doc_state.ctx with
                        | some loro_doc, some ctx =>
                            some (build_doc_payload loro_doc ctx.peer_map output_format,
                                  ctx.doc_version)
                        | _, _ => none
              match mem_data with
              | some (payload, doc_version_mem) =>
                  (.ok { json := payload.1, binary := payload.2.1,
                         version := doc_version_mem,
                         version_v := payload.2.2.1, peer_map := payload.2.2.2 }, store)
              | none =>
                  match fetch_doc_snapshot_from_db org_id doc_id none fresh_peer store with
                  | (.ok (some (snapshot, ctx)), store2) =>
                      let payload := build_doc_payload snapshot ctx.peer_map output_format
                      (.ok { json := payload.1, binary := payload.2.1,
                             version := ctx.doc_version,
                             version_v := payload.2.2.1, peer_map := payload.2.2.2 }, store2)
                  | (.ok none, store2) =>
                      (.error { code := 404, status := "404 Not Found",
                                error := "Document '" ++ doc_id ++ "' not found" }, store2)
                  | (.error e, store2) =>
                      (.error { code := 500, status := "500 Internal Server Error",
                                error := e }, store2)

/-- The serving tail of `doc_version` (doc_version.rs:156–265): derive
the frontier from the supplied version vector (or the current state),
check the document out to it, and build the response. -/
def doc_version_serve (loro_doc : LoroDocM) (target_peer_map : List (Nat × String))
    (version : Nat) (version_v : Option (List (Nat × Nat)))
    (output_format : OutputFormat) : DocumentVersionResponse :=
  let frontiers :=
    match version_v with
    | some vv => vv_to_frontiers loro_doc vv
    | none => state_frontiers loro_doc
  let checked := loro_checkout loro_doc frontiers
  let binary_str := if output_format.include_binary
    then some (export_state_only checked (some frontiers)) else none
  let json := if output_format.include_json then some checked.value else none
  let peer_map := jsonOfPeerMap target_peer_map
  let version_v_json :=
    match version_v with
    | some vv => jsonOfVV vv
    | none => jsonOfVV checked.state_vv
  { json := json, binary := binary_str, version := version,
    version_v := version_v_json, peer_map := peer_map }

/-- The open-room probe of `doc_version` (doc_version.rs:87–99): the
live document handle and peer map, when the room is open with a loaded
document and context whose version matches the request. -/
def hub_room_lookup (registry : HubRegistryM) (org_id doc_id : String)
    (version : Nat) : Option (LoroDocM × List (Nat × String)) :=
  match alFind registry org_id with
  | none => none
  | some hub =>
      match alFind hub doc_id with
      | none => none
      | some doc_state =>
          match doc_state.doc, doc_state.ctx with
          | some doc, some ctx =>
              if ctx.doc_version == Int.ofNat version then
                some (doc, ctx.peer_map)
              else none
          | _, _ => none

/-- Embeds `doc_version` (doc_version.rs:43–268): serve from the open
room when its context version matches the requested version (the
checkout then runs on a clone of the live handle; clone aliasing of the
loro library is outside this embedding, which copies the value), else
load the requested version from the store via
`fetch_doc_snapshot_from_db`. -/
def doc_version (registry : HubRegistryM) (prpls : List String)
    (org_id doc_id : String) (request : DocumentVersionRequest)
    (fresh_peer : Nat) (store : Store) :
    Except ErrorResponse DocumentVersionResponse × Store :=
  match output_format_from_query request.format with
  | .error message =>
      (.error { code := 400, status := "400 Bad Request", error := message }, store)
  | .ok output_format =>
      match ensure_service prpls "colabri-app" with
      | .error e => (.error e, store)
      | .ok _ =>
          match parse_uuid doc_id with
          | none => (.error { code := 400, status := "400 Bad Request",
                              error := "Invalid document UUID '" ++ doc_id ++ "'" }, store)
          | some _doc_uuid =>
              let version := request.version
              match hub_room_lookup registry org_id doc_id version with
              | some (doc, pm) =>
                  (.ok (doc_version_serve doc pm version request.version_v output_format),
                   store)
              | none =>
                  match fetch_doc_snapshot_from_db org_id doc_id (some version)
                      fresh_peer store with
                  | (.ok (some (snapshot, ctx)), store2) =>
                      (.ok (doc_version_serve snapshot ctx.peer_map version
                              request.version_v output_format), store2)
                  | (.ok none, store2) =>
                      (.error { code := 404, status := "404 Not Found",
                                error := "Document '" ++ doc_id ++ "' with version "
                                  ++ toString version ++ " not found" }, store2)
                  | (.error e, store2) =>
                      (.error { code := 500, status := "500 Internal Server Error",
                                error := e }, store2)

/-! ## Periodic save (`src/ws/wscolab.rs` lines 469–584) -/

/-- Arguments of the save handler (`SaveDocArgs<DocContext>`); `data` is
the snapshot the framework exported from the room document. -/
structure SaveDocArgs where
  room : String
  crdt : CrdtTypeM
  data : LoroDocM
  ctx : Option WsDocContext

/-- Modelled from the spec: `update_statement`, called by
`on_save_document` (wscolab.rs:552), is not part of src/ — modelled as
C3's `update_colab_doc` specialised to the statement table. -/
def update_statement (store : Store) (org : String) (doc_id : Nat)
    (doc_stream_id : Nat) (blob : Blob) (json : JVal) (by_prpl : String) :
    Except SqlxError Nat × Store :=
  update_colab_doc store org doc_id "colab-statement" doc_stream_id blob json by_prpl

/-- Embeds `on_save_document` (wscolab.rs:469–584).  The handler works on
`args.ctx.clone()`; the assignment `context.last_updating_peer = None`
after a successful store update (wscolab.rs:563) mutates only that local
clone, and the handler's return type (`Result<(), String>`) carries no
context, which the third component (whether a store write was issued)
makes observable. -/
def on_save_document (args : SaveDocArgs) (store : Store) :
    Except String Unit × Store × Bool :=
  if args.crdt ≠ CrdtTypeM.loro then (.ok (), store, false)
  else
    match args.ctx with
    | none => (.error "No doc context available when saving", store, false)
    | some context =>
        match context.last_updating_peer with
        | none => (.ok (), store, false)
        | some updating_peer_id =>
            match alFind context.peer_map updating_peer_id with
            | none => (.error "No principal found for updating peer", store, false)
            | some by_prpl =>
                let blob := serde_cbor_to_vec
                  { snapshot := args.data, peer_map := context.peer_map }
                let json := args.data.value
                match update_statement store context.org context.doc_id
                    context.doc_stream_id blob json by_prpl with
                | (.ok _, store2) => (.ok (), store2, true)
                | (.error _, store2) => (.error "Failed to update statement", store2, true)

/-- Modelled from the spec: one tick of the periodic save for one room.
The missing `loro_websocket_server` hub exports the room document, hands
the handler a clone of the room's context, and receives only a `Result`
back; being generic in the context type, it keeps the stored context
unchanged. -/
def hubSaveTick (room : RoomM) (room_id : String) (store : Store) :
    RoomM × Store × Bool × Except String Unit :=
  let r := on_save_document
    { room := room_id, crdt := .loro, data := room.doc, ctx := room.ctx } store
  (room, r.2.1, r.2.2, r.1)

/-! ## Theorems -/

theorem alFind_alInsert_self {α β : Type} [DecidableEq α]
    (l : List (α × β)) (k : α) (v : β) : alFind (alInsert l k v) k = some v := by
  induction l with
  | nil => simp [alInsert, alFind]
  | cons hd tl ih =>
      obtain ⟨k1, v1⟩ := hd
      by_cases h : k1 = k
      · subst h; simp [alInsert, alFind]
      · simp [alInsert, alFind, h, ih]

theorem alFind_alInsert_ne {α β : Type} [DecidableEq α]
    (l : List (α × β)) (k k1 : α) (v : β) (h : k1 ≠ k) :
    alFind (alInsert l k v) k1 = alFind l k1 := by
  induction l with
  | nil => simp [alInsert, alFind, Ne.symm h]
  | cons hd tl ih =>
      obtain ⟨k2, v2⟩ := hd
      by_cases h2 : k2 = k
      · subst h2
        by_cases h3 : k2 = k1
        · exact absurd h3.symm h
        · simp [alInsert, alFind, h3]
      · by_cases h3 : k2 = k1
        · subst h3; simp [alInsert, alFind, h2]
        · simp [alInsert, alFind, h2, h3, ih]

/-! ### Text-element recursion limit (C8) -/

theorem childListHeight_cons (c : TextElementChild) (rest : List TextElementChild) :
    childListHeight (c :: rest) = max (childHeight c) (childListHeight rest) := by
  rw [childListHeight]

theorem childHeight_mk (n : String) (a : List (String × String))
    (ch : TextElementChildrenOrString) :
    childHeight (.mk n a ch) = 1 + childrenHeight ch := by
  rw [childHeight]

theorem txtelem_child_mk_unfold (n : String) (a : List (String × String))
    (ch : TextElementChildrenOrString) (d m : Nat) (hd : ¬ d ≥ m) :
    txtelem_child_to_loro_map (.mk n a ch) d m =
      .map [("nodeName", .str n),
            ("attributes", .map (a.map (fun kv => (kv.1, .str kv.2)))),
            ("children",
              match ch with
              | .asChildren cs => .list (txtelem_children_to_loro cs (d + 1) m)
              | .asStringArray ss => .list (ss.map LVal.text))] := by
  rw [txtelem_child_to_loro_map.eq_def, if_neg hd]

theorem txtelem_child_unbounded_mk (n : String) (a : List (String × String))
    (ch : TextElementChildrenOrString) :
    txtelem_child_unbounded (.mk n a ch) =
      .map [("nodeName", .str n),
            ("attributes", .map (a.map (fun kv => (kv.1, .str kv.2)))),
            ("children",
              match ch with
              | .asChildren cs => .list (txtelem_children_unbounded cs)
              | .asStringArray ss => .list (ss.map LVal.text))] := by
  rw [txtelem_child_unbounded.eq_def]

mutual
theorem txtelem_child_eq_unbounded (c : TextElementChild) (d : Nat)
    (h : d + childHeight c ≤ MAX_DEPTH) :
    txtelem_child_to_loro_map c d MAX_DEPTH = txtelem_child_unbounded c := by
  match c with
  | .mk nodeName attrs children =>
    have h1 : childHeight (.mk nodeName attrs children)
        = 1 + childrenHeight children := childHeight_mk _ _ _
    have hd : ¬ d ≥ MAX_DEPTH := by omega
    rw [txtelem_child_mk_unfold _ _ _ _ _ hd, txtelem_child_unbounded_mk]
    match children with
    | .asChildren cs =>
        have hcs : (d + 1) + childListHeight cs ≤ MAX_DEPTH := by
          rw [h1] at h
          simp only [childrenHeight] at h
          omega
        simp only
        rw [txtelem_children_eq_unbounded cs (d + 1) hcs]
    | .asStringArray ss => rfl

theorem txtelem_children_eq_unbounded (cs : List TextElementChild) (d : Nat)
    (h : d + childListHeight cs ≤ MAX_DEPTH) :
    txtelem_children_to_loro cs d MAX_DEPTH = txtelem_children_unbounded cs := by
  match cs with
  | [] => rfl
  | c :: rest =>
      rw [childListHeight_cons] at h
      have hc : d + childHeight c ≤ MAX_DEPTH := by
        have h2 := Nat.le_max_left (childHeight c) (childListHeight rest)
        omega
      have hrest : d + childListHeight rest ≤ MAX_DEPTH := by
        have h2 := Nat.le_max_right (childHeight c) (childListHeight rest)
        omega
      rw [txtelem_children_to_loro, txtelem_children_unbounded,
          txtelem_child_eq_unbounded c d hc,
          txtelem_children_eq_unbounded rest d hrest]
end

theorem txtelem_child_truncates (c : TextElementChild) (d : Nat)
    (h : d ≥ MAX_DEPTH) :
    txtelem_child_to_loro_map c d MAX_DEPTH = truncatedSentinel := by
  rw [txtelem_child_to_loro_map.eq_def, if_pos h]
  rfl

theorem chainChild_height (n : Nat) : childHeight (chainChild n) = n + 1 := by
  induction n with
  | zero =>
      rw [chainChild, childHeight_mk]
      rfl
  | succ n ih =>
      rw [chainChild, childHeight_mk]
      have h1 : childrenHeight (.asChildren [chainChild n])
          = childListHeight [chainChild n] := by rw [childrenHeight]
      have h2 : childListHeight [chainChild n]
          = max (childHeight (chainChild n)) (childListHeight []) :=
        childListHeight_cons _ _
      have h3 : childListHeight ([] : List TextElementChild) = 0 := by
        rw [childListHeight]
      rw [h1, h2, h3, ih]
      omega

theorem nestingDepth_chainTree (n : Nat) : nestingDepth (chainTree n) = n + 2 := by
  rw [nestingDepth, chainTree]
  have h2 : childListHeight [chainChild n]
      = max (childHeight (chainChild n)) (childListHeight []) :=
    childListHeight_cons _ _
  have h3 : childListHeight ([] : List TextElementChild) = 0 := by
    rw [childListHeight]
  simp only [h2, h3, chainChild_height]
  omega

/-- C8: converting a text element tree to CRDT form is a total function of
the tree (it terminates, with no panic, for every nesting depth — in this
embedding `txtelem_to_loro_doc` is a total Lean function); a tree whose
nesting depth (elements on the longest path, root included) is at most the
recursion limit `MAX_DEPTH = 100` is encoded normally, i.e. identically to
the unbounded reference encoding, while any child reached at depth
`MAX_DEPTH` or beyond — the `limit+1`-th element of a path — is encoded as
the sentinel node with nodeName `"truncated"` in place of its real
content. -/
theorem C8_txtelem_recursion_limit :
    (∀ t : TextElement, nestingDepth t ≤ MAX_DEPTH →
        txtelem_to_loro_doc t = txtelem_unbounded t)
  ∧ (∀ (c : TextElementChild) (d : Nat), d ≥ MAX_DEPTH →
        txtelem_child_to_loro_map c d MAX_DEPTH = truncatedSentinel) := by
  constructor
  · intro t h
    rw [nestingDepth] at h
    rw [txtelem_to_loro_doc, txtelem_unbounded,
        txtelem_children_eq_unbounded t.children 1 (by omega)]
  · intro c d h
    exact txtelem_child_truncates c d h

/-- Witness for C8: the chain tree of nesting depth exactly 100 encodes
normally, and a child sitting past the limit (the 101st element of a
path, reached at depth 100) encodes as the truncation sentinel. -/
theorem C8_txtelem_recursion_limit_witness :
    (nestingDepth (chainTree 98) = 100
      ∧ txtelem_to_loro_doc (chainTree 98) = txtelem_unbounded (chainTree 98))
  ∧ txtelem_child_to_loro_map (chainChild 0) 100 MAX_DEPTH = truncatedSentinel := by
  refine ⟨⟨nestingDepth_chainTree 98, ?_⟩, ?_⟩
  · exact C8_txtelem_recursion_limit.1 (chainTree 98)
      (by rw [nestingDepth_chainTree]; decide)
  · exact C8_txtelem_recursion_limit.2 (chainChild 0) 100 (by decide)

/-! ### Identity cache (C10) -/

/-- C10: when the identity RPC succeeds but its payload is not parseable
as a principal list — neither a bare array of strings nor an object whose
`prpls` field is an array of strings — `get_or_fetch_user_ctx_async` does
not fail: on a cache miss it returns success with an empty principal set
and caches that empty set under the user id (the idle TTL of the moka
cache is a real-time parameter outside this embedding). -/
theorem C10_unparseable_principals_cached_empty
    (uid : String) (token_roles : List String) (j : JVal) (cache : UserCtxCache)
    (hmiss : alFind cache uid = none)
    (hbad1 : ∀ v, jGet j "prpls" = some v → parseStringArray v = none)
    (hbad2 : jGet j "prpls" = none → parseStringArray j = none) :
    get_or_fetch_user_ctx_async uid token_roles (.ok j) cache
      = (.ok { principals := [], token_roles := token_roles },
         alInsert cache uid { principals := [], token_roles := token_roles }) := by
  cases hp : jGet j "prpls" with
  | some v =>
      have hv := hbad1 v hp
      simp [get_or_fetch_user_ctx_async, parse_principals_from_json, hmiss, hp, hv]
  | none =>
      have hv := hbad2 hp
      simp [get_or_fetch_user_ctx_async, parse_principals_from_json, hmiss, hp, hv]

/-- Witness for C10: an RPC payload that is a bare number is cached as an
empty principal set. -/
theorem C10_unparseable_principals_cached_empty_witness :
    get_or_fetch_user_ctx_async "u1" ["role1"] (.ok (.num 3)) []
      = (.ok { principals := [], token_roles := ["role1"] },
         [("u1", { principals := [], token_roles := ["role1"] })]) :=
  C10_unparseable_principals_cached_empty "u1" ["role1"] (.num 3) [] rfl
    (fun _ hv => nomatch hv) (fun _ => rfl)

/-! ### Handshake without a configured secret (C9) -/

/-- C9 counterexample: with no JWT secret configured, a connection whose
request carries no `auth_token` cookie is rejected, so the handshake does
not accept every connection. -/
theorem C9_counterexample :
    (on_auth_handshake
      { cloud_auth_jwt_secret := none, decodeSub := fun _ => none,
        clientInitialized := false, get_prpls := fun _ => .error "x" }
      { workspace := "o1", conn_id := 1, cookies := [] } [] []).accept = false := rfl

/-- C9 amended: with no JWT secret configured (`CLOUD_AUTH_JWT_SECRET`
unset), the handshake accepts exactly the connections that present an
`auth_token` cookie — with any value, never validated — and in either
case attempts no token validation, never consults the identity service,
and records no user or connection context. -/
theorem C9_no_secret_amended (env : HandshakeEnv) (args : HandshakeAuthArgs)
    (user_cache : WsUserCtxCache) (conn_cache : ConnCtxCache)
    (h : env.cloud_auth_jwt_secret = none) :
    on_auth_handshake env args user_cache conn_cache
      = { accept := (alFind args.cookies "auth_token").isSome,
          user_cache := user_cache, conn_cache := conn_cache,
          identity_called := false, validation_attempted := false } := by
  unfold on_auth_handshake
  cases hc : alFind args.cookies "auth_token" with
  | none => simp
  | some token => rw [h]; simp

/-- Witness for C9: with no secret, a request with an arbitrary
`auth_token` cookie is accepted with no cache writes, no RPC, no
validation. -/
theorem C9_no_secret_amended_witness :
    on_auth_handshake
      { cloud_auth_jwt_secret := none, decodeSub := fun _ => none,
        clientInitialized := false, get_prpls := fun _ => .error "x" }
      { workspace := "o1", conn_id := 1, cookies := [("auth_token", "anything")] }
      [] []
      = { accept := true, user_cache := [], conn_cache := [],
          identity_called := false, validation_attempted := false } :=
  C9_no_secret_amended _ _ _ _ rfl

/-! ### Update admission (C1, C2, C3) -/

theorem on_update_denied_shape (cc : ConnCtxCache) (args : UpdateArgs)
    (imported : LoroDocM)
    (h : (on_update cc args imported).status = .permissionDenied) :
    (on_update cc args imported).doc = none
    ∧ (on_update cc args imported).ctx = args.ctx := by
  by_cases hcrdt : args.crdt = CrdtTypeM.loro
  · cases hctx : args.ctx with
    | none => simp [on_update, hcrdt, hctx] at h
    | some doc_ctx =>
        cases hconn : alFind cc args.conn_id with
        | none =>
            constructor <;> simp [on_update, hcrdt, hctx, hconn]
        | some conn_ctx =>
            cases hdoc : args.doc with
            | none => simp [on_update, hcrdt, hctx, hconn, hdoc] at h
            | some loro_doc =>
                cases hpeer : findUpdatingPeer loro_doc.oplog_vv imported.oplog_vv with
                | none => simp [on_update, hcrdt, hctx, hconn, hdoc, hpeer] at h
                | some p =>
                    cases hbound : alFind doc_ctx.peer_map p with
                    | none =>
                        simp [on_update, hcrdt, hctx, hconn, hdoc, hpeer, hbound] at h
                    | some found_prpl =>
                        by_cases heq : found_prpl = conn_ctx.org_id ++ "/u/" ++ conn_ctx.uid
                        · simp [on_update, hcrdt, hctx, hconn, hdoc, hpeer, hbound, heq] at h
                        · constructor <;>
                            simp [on_update, hcrdt, hctx, hconn, hdoc, hpeer, hbound, heq]
  · simp [on_update, hcrdt] at h

/-- C1 counterexample: the connection's user (uid `a`, org `o1`) holds
the principal set `["o1/u/b"]`, and peer 7 is bound to `o1/u/b`, which
lies in that set; the claim then demands acceptance, but `on_update`
rejects the batch with `PermissionDenied`, because admission compares the
stored principal against the string `o1/u/a` derived from the connection
context, not against the user's principal set. -/
theorem C1_admission_counterexample :
    alFind [("a", ({ principals := ["o1/u/b"], token_roles := [] } : UserCtx))] "a"
      = some { principals := ["o1/u/b"], token_roles := [] }
    ∧ "o1/u/b" ∈ ["o1/u/b"]
    ∧ alFind ([(7, "o1/u/b")] : List (Nat × String)) 7 = some "o1/u/b"
    ∧ (on_update [(1, { uid := "a", org_id := "o1" })]
        { conn_id := 1, room := "d1", crdt := .loro, updates := [[0]],
          ctx := some { org := "o1", doc_id := 5, doc_stream_id := 6,
                        peer_map := [(7, "o1/u/b")], last_updating_peer := none },
          doc := some { peer_id := 55, oplog_vv := [(7, 0)],
                        state_vv := [(7, 0)], value := .null } }
        { peer_id := 55, oplog_vv := [(7, 1)], state_vv := [(7, 1)],
          value := .null }).status = .permissionDenied :=
  ⟨rfl, by simp, rfl, rfl⟩

/-- C1 amended: for an update batch whose updating peer already has an
entry in the room's peer map, the batch is accepted iff the stored
principal equals the principal string `org_id/u/uid` built from the
connection's context (and is rejected with `PermissionDenied` iff it
differs); the connection's wider principal set is not consulted. -/
theorem C1_admission_rule_amended (cc : ConnCtxCache) (args : UpdateArgs)
    (imported : LoroDocM) (doc_ctx : WsDocContext) (conn_ctx : ConnCtx)
    (loro_doc : LoroDocM) (p : Nat) (found_prpl : String)
    (hcrdt : args.crdt = CrdtTypeM.loro)
    (hctx : args.ctx = some doc_ctx)
    (hconn : alFind cc args.conn_id = some conn_ctx)
    (hdoc : args.doc = some loro_doc)
    (hpeer : findUpdatingPeer loro_doc.oplog_vv imported.oplog_vv = some p)
    (hbound : alFind doc_ctx.peer_map p = some found_prpl) :
    ((on_update cc args imported).status = .ok
        ↔ found_prpl = conn_ctx.org_id ++ "/u/" ++ conn_ctx.uid)
    ∧ ((on_update cc args imported).status = .permissionDenied
        ↔ found_prpl ≠ conn_ctx.org_id ++ "/u/" ++ conn_ctx.uid) := by
  by_cases heq : found_prpl = conn_ctx.org_id ++ "/u/" ++ conn_ctx.uid
  · constructor <;>
      simp [on_update, hcrdt, hctx, hconn, hdoc, hpeer, hbound, heq]
  · constructor <;>
      simp [on_update, hcrdt, hctx, hconn, hdoc, hpeer, hbound, heq]

/-- Witness for C1 amended: the same shape with peer 7 bound to `o1/u/a`
(the connection's derived principal) is accepted. -/
theorem C1_admission_rule_amended_witness :
    (on_update [(1, { uid := "a", org_id := "o1" })]
      { conn_id := 1, room := "d1", crdt := .loro, updates := [[0]],
        ctx := some { org := "o1", doc_id := 5, doc_stream_id := 6,
                      peer_map := [(7, "o1/u/a")], last_updating_peer := none },
        doc := some { peer_id := 55, oplog_vv := [(7, 0)],
                      state_vv := [(7, 0)], value := .null } }
      { peer_id := 55, oplog_vv := [(7, 1)], state_vv := [(7, 1)],
        value := .null }).status = .ok :=
  ((C1_admission_rule_amended
      [(1, { uid := "a", org_id := "o1" })]
      { conn_id := 1, room := "d1", crdt := .loro, updates := [[0]],
        ctx := some { org := "o1", doc_id := 5, doc_stream_id := 6,
                      peer_map := [(7, "o1/u/a")], last_updating_peer := none },
        doc := some { peer_id := 55, oplog_vv := [(7, 0)],
                      state_vv := [(7, 0)], value := .null } }
      { peer_id := 55, oplog_vv := [(7, 1)], state_vv := [(7, 1)], value := .null }
      { org := "o1", doc_id := 5, doc_stream_id := 6,
        peer_map := [(7, "o1/u/a")], last_updating_peer := none }
      { uid := "a", org_id := "o1" }
      { peer_id := 55, oplog_vv := [(7, 0)], state_vv := [(7, 0)], value := .null }
      7 "o1/u/a" rfl rfl rfl rfl rfl rfl).1).mpr rfl

/-- C2: whenever the update step rejects a batch with `PermissionDenied`,
the room's CRDT document state after the call equals its state before the
call, and the room's context — `last_updating_peer` included — is
unchanged: the imported operations land only on the working copy, which
the hub discards. -/
theorem C2_denied_update_rolls_back (cc : ConnCtxCache) (room : RoomM)
    (conn_id : Nat) (room_id : String) (crdt : CrdtTypeM)
    (updates : List (List Nat)) (imported : LoroDocM)
    (h : (hubApplyUpdate cc room conn_id room_id crdt updates imported).2
          = .permissionDenied) :
    (hubApplyUpdate cc room conn_id room_id crdt updates imported).1.doc = room.doc
    ∧ (hubApplyUpdate cc room conn_id room_id crdt updates imported).1.ctx = room.ctx := by
  have h2 := on_update_denied_shape cc
    { conn_id := conn_id, room := room_id, crdt := crdt, updates := updates,
      ctx := room.ctx, doc := some room.doc } imported (by
        unfold hubApplyUpdate at h
        dsimp only at h
        exact h)
  unfold hubApplyUpdate
  dsimp only
  rw [h2.1, h2.2]
  cases hctx : room.ctx with
  | none => exact ⟨rfl, rfl⟩
  | some c => exact ⟨rfl, rfl⟩

/-- Witness for C2: the impersonation shape of C1 is denied and leaves
both the document and the context of the room untouched. -/
theorem C2_denied_update_rolls_back_witness :
    (hubApplyUpdate [(1, { uid := "a", org_id := "o1" })]
      { doc := { peer_id := 55, oplog_vv := [(7, 0)], state_vv := [(7, 0)],
                 value := .null },
        ctx := some { org := "o1", doc_id := 5, doc_stream_id := 6,
                      peer_map := [(7, "o1/u/b")], last_updating_peer := none } }
      1 "d1" .loro [[0]]
      { peer_id := 55, oplog_vv := [(7, 1)], state_vv := [(7, 1)],
        value := .null }).2 = .permissionDenied
    ∧ (hubApplyUpdate [(1, { uid := "a", org_id := "o1" })]
        { doc := { peer_id := 55, oplog_vv := [(7, 0)], state_vv := [(7, 0)],
                   value := .null },
          ctx := some { org := "o1", doc_id := 5, doc_stream_id := 6,
                        peer_map := [(7, "o1/u/b")], last_updating_peer := none } }
        1 "d1" .loro [[0]]
        { peer_id := 55, oplog_vv := [(7, 1)], state_vv := [(7, 1)],
          value := .null }).1.doc
      = { peer_id := 55, oplog_vv := [(7, 0)], state_vv := [(7, 0)], value := .null } :=
  ⟨rfl, (C2_denied_update_rolls_back
      [(1, { uid := "a", org_id := "o1" })]
      { doc := { peer_id := 55, oplog_vv := [(7, 0)], state_vv := [(7, 0)],
                 value := .null },
        ctx := some { org := "o1", doc_id := 5, doc_stream_id := 6,
                      peer_map := [(7, "o1/u/b")], last_updating_peer := none } }
      1 "d1" .loro [[0]]
      { peer_id := 55, oplog_vv := [(7, 1)], state_vv := [(7, 1)],
        value := .null } rfl).1⟩

/-- C3 counterexample: peer 5 is bound to `o1/u/a`; the system-edit
annotation step of `edit_doc`, run with edit peer 5, rebinds it to
`s/colabri-doc`, so a later operation does change the stored value of an
existing peer binding. -/
theorem C3_append_only_counterexample :
    alFind ({ org := "o1", doc_id := 1, doc_stream_id := 2, doc_version := 1,
              doc_owner := "o1/u/own", peer_map := [(5, "o1/u/a")],
              last_updating_peer := none } : DocContext).peer_map 5 = some "o1/u/a"
    ∧ alFind (edit_doc_annotate_peer_map
        { org := "o1", doc_id := 1, doc_stream_id := 2, doc_version := 1,
          doc_owner := "o1/u/own", peer_map := [(5, "o1/u/a")],
          last_updating_peer := none } 5).peer_map 5 = some "s/colabri-doc" :=
  ⟨rfl, rfl⟩

/-- C3 amended: update admission never changes an existing peer binding
(a bound peer's value survives every `on_update`), and the save tick
leaves the room's stored context untouched; the system-edit annotation of
`edit_doc` preserves the binding of every peer other than the one the
edit ran under, but sets — overwriting if present — the binding of the
edit peer to the service principal `s/colabri-doc`.  (A load builds a
fresh context rather than modifying an existing one.) -/
theorem C3_peer_bindings_amended :
    (∀ (cc : ConnCtxCache) (args : UpdateArgs) (imported : LoroDocM)
       (doc_ctx ctx2 : WsDocContext) (p : Nat) (v : String),
        args.ctx = some doc_ctx → alFind doc_ctx.peer_map p = some v →
        (on_update cc args imported).ctx = some ctx2 →
        alFind ctx2.peer_map p = some v)
    ∧ (∀ (room : RoomM) (room_id : String) (store : Store),
        (hubSaveTick room room_id store).1 = room)
    ∧ (∀ (ctx : DocContext) (peer_id p : Nat) (v : String), p ≠ peer_id →
        alFind ctx.peer_map p = some v →
        alFind (edit_doc_annotate_peer_map ctx peer_id).peer_map p = some v)
    ∧ (∀ (ctx : DocContext) (peer_id : Nat),
        alFind (edit_doc_annotate_peer_map ctx peer_id).peer_map peer_id
          = some "s/colabri-doc") := by
  refine ⟨?_, ?_, ?_, ?_⟩
  · intro cc args imported doc_ctx ctx2 p v hctx hbound hout
    by_cases hcrdt : args.crdt = CrdtTypeM.loro
    · cases hconn : alFind cc args.conn_id with
      | none =>
          simp [on_update, hcrdt, hctx, hconn] at hout
          rw [← hout]; exact hbound
      | some conn_ctx =>
          cases hdoc : args.doc with
          | none =>
              simp [on_update, hcrdt, hctx, hconn, hdoc] at hout
              rw [← hout]; exact hbound
          | some loro_doc =>
              cases hpeer : findUpdatingPeer loro_doc.oplog_vv imported.oplog_vv with
              | none =>
                  simp [on_update, hcrdt, hctx, hconn, hdoc, hpeer] at hout
                  rw [← hout]; exact hbound
              | some up =>
                  cases hb : alFind doc_ctx.peer_map up with
                  | none =>
                      simp [on_update, hcrdt, hctx, hconn, hdoc, hpeer, hb] at hout
                      have hne : p ≠ up := by
                        intro hpe; rw [hpe, hb] at hbound; exact nomatch hbound
                      rw [← hout]
                      simpa [alFind_alInsert_ne doc_ctx.peer_map up p _ hne] using hbound
                  | some found =>
                      by_cases heq : found = conn_ctx.org_id ++ "/u/" ++ conn_ctx.uid
                      · simp [on_update, hcrdt, hctx, hconn, hdoc, hpeer, hb, heq] at hout
                        rw [← hout]; exact hbound
                      · simp [on_update, hcrdt, hctx, hconn, hdoc, hpeer, hb, heq] at hout
                        rw [← hout]; exact hbound
    · simp [on_update, hcrdt, hctx] at hout
      rw [← hout]; exact hbound
  · intro room room_id store; rfl
  · intro ctx peer_id p v hne hb
    unfold edit_doc_annotate_peer_map
    simpa [alFind_alInsert_ne ctx.peer_map peer_id p _ hne] using hb
  · intro ctx peer_id
    unfold edit_doc_annotate_peer_map
    exact alFind_alInsert_self ctx.peer_map peer_id "s/colabri-doc"

/-- Witness for C3 amended: a bound peer survives an accepting update by
another peer, the save tick keeps the room, and the edit annotation
preserves the other peer while binding the edit peer to the service
principal. -/
theorem C3_peer_bindings_amended_witness :
    alFind ({ org := "o1", doc_id := 5, doc_stream_id := 6,
              peer_map := [(7, "o1/u/b"), (8, "o1/u/a")],
              last_updating_peer := some 8 } : WsDocContext).peer_map 7
      = some "o1/u/b"
    ∧ alFind (edit_doc_annotate_peer_map
        { org := "o1", doc_id := 1, doc_stream_id := 2, doc_version := 1,
          doc_owner := "o1/u/own", peer_map := [(5, "o1/u/a")],
          last_updating_peer := none } 9).peer_map 5 = some "o1/u/a"
    ∧ alFind (edit_doc_annotate_peer_map
        { org := "o1", doc_id := 1, doc_stream_id := 2, doc_version := 1,
          doc_owner := "o1/u/own", peer_map := [(5, "o1/u/a")],
          last_updating_peer := none } 9).peer_map 9 = some "s/colabri-doc" := by
  refine ⟨?_, ?_, ?_⟩
  · exact C3_peer_bindings_amended.1
      [(1, { uid := "a", org_id := "o1" })]
      { conn_id := 1, room := "d1", crdt := .loro, updates := [[0]],
        ctx := some { org := "o1", doc_id := 5, doc_stream_id := 6,
                      peer_map := [(7, "o1/u/b")], last_updating_peer := none },
        doc := some { peer_id := 55, oplog_vv := [(7, 0), (8, 0)],
                      state_vv := [(7, 0), (8, 0)], value := .null } }
      { peer_id := 55, oplog_vv := [(7, 0), (8, 2)], state_vv := [(7, 0), (8, 2)],
        value := .null }
      { org := "o1", doc_id := 5, doc_stream_id := 6,
        peer_map := [(7, "o1/u/b")], last_updating_peer := none }
      { org := "o1", doc_id := 5, doc_stream_id := 6,
        peer_map := [(7, "o1/u/b"), (8, "o1/u/a")], last_updating_peer := some 8 }
      7 "o1/u/b" rfl rfl rfl
  · exact C3_peer_bindings_amended.2.2.1
      { org := "o1", doc_id := 1, doc_stream_id := 2, doc_version := 1,
        doc_owner := "o1/u/own", peer_map := [(5, "o1/u/a")],
        last_updating_peer := none } 9 5 "o1/u/a" (by decide) rfl
  · exact C3_peer_bindings_amended.2.2.2
      { org := "o1", doc_id := 1, doc_stream_id := 2, doc_version := 1,
        doc_owner := "o1/u/own", peer_map := [(5, "o1/u/a")],
        last_updating_peer := none } 9

/-! ### Transactional update of a document (C4) -/

/-- C4 counterexample: the statements row of document 1 exists but the
targeted stream row 99 does not; the call returns `RowNotFound`, yet the
transaction was committed first, so the JSON row has been updated
(`synced` flipped to `false`) — the store is not left unchanged. -/
theorem C4_notfound_counterexample :
    (update_colab_doc
      { documents := [], streams := [],
        statements := [{ org := "o1", document := 1, json := some (.num 1),
                         synced := true, updated_by := "x" }],
        sheets := [], next_id := 10 }
      "o1" 1 "colab-statement" 99 (.junk 0) (.num 2) "s/colabri-app").1
      = .error .rowNotFound
    ∧ ((update_colab_doc
        { documents := [], streams := [],
          statements := [{ org := "o1", document := 1, json := some (.num 1),
                           synced := true, updated_by := "x" }],
          sheets := [], next_id := 10 }
        "o1" 1 "colab-statement" 99 (.junk 0) (.num 2) "s/colabri-app").2).statements.map
          (fun r => r.synced) = [false]
    ∧ ([({ org := "o1", document := 1, json := some (.num 1), synced := true,
           updated_by := "x" } : ModelRow)]).map (fun r => r.synced) = [true] :=
  ⟨rfl, rfl, rfl⟩

/-- C4 amended: for a known `doc_type`, `update_colab_doc` returns
`RowNotFound` exactly when the targeted stream row or the per-type JSON
row does not exist, and returns the stream id when both exist — but the
transaction is committed before that check, so the resulting store always
carries both updates applied to whatever rows matched; only an unknown
`doc_type` aborts before the commit. -/
theorem C4_update_colab_doc_amended (store : Store) (org : String) (doc_id : Nat)
    (doc_type : String) (stream_id : Nat) (blob : Blob) (json : JVal)
    (by_prpl : String)
    (htype : doc_type = "colab-statement" ∨ doc_type = "colab-sheet") :
    ((update_colab_doc store org doc_id doc_type stream_id blob json by_prpl).1
        = .error .rowNotFound
      ↔ (store.streams.any (updStreamHit org stream_id) = false
          ∨ (if doc_type = "colab-statement" then store.statements
             else store.sheets).any (updModelHit org doc_id) = false))
    ∧ (store.streams.any (updStreamHit org stream_id) = true →
        (if doc_type = "colab-statement" then store.statements
         else store.sheets).any (updModelHit org doc_id) = true →
        (update_colab_doc store org doc_id doc_type stream_id blob json by_prpl).1
          = .ok stream_id)
    ∧ (update_colab_doc store org doc_id doc_type stream_id blob json by_prpl).2
        = { store with
            streams := store.streams.map (fun row =>
              if updStreamHit org stream_id row then
                { row with content := some blob, size := blobSize blob,
                           updated_by := by_prpl }
              else row),
            statements := if doc_type = "colab-statement"
              then applyModelUpd org doc_id json by_prpl store.statements
              else store.statements,
            sheets := if doc_type = "colab-sheet"
              then applyModelUpd org doc_id json by_prpl store.sheets
              else store.sheets } := by
  rcases htype with h | h
  · subst h
    cases hs : store.streams.any (updStreamHit org stream_id) <;>
      cases hm : store.statements.any (updModelHit org doc_id) <;>
        constructor <;> simp [update_colab_doc, hs, hm]
  · subst h
    cases hs : store.streams.any (updStreamHit org stream_id) <;>
      cases hm : store.sheets.any (updModelHit org doc_id) <;>
        constructor <;> simp [update_colab_doc, hs, hm]

/-- Witness for C4 amended: stream row present, statements row absent —
`RowNotFound` is returned while the stream row is still rewritten. -/
theorem C4_update_colab_doc_amended_witness :
    (update_colab_doc
      { documents := [],
        streams := [{ org := "o1", id := 2, name := "main", document := 1,
                      version := 1, content := none, size := 0,
                      updated_by := "x", deleted := false }],
        statements := [], sheets := [], next_id := 10 }
      "o1" 1 "colab-statement" 2 (.junk 3) (.num 2) "s/colabri-app").1
      = .error .rowNotFound
    ∧ (update_colab_doc
        { documents := [],
          streams := [{ org := "o1", id := 2, name := "main", document := 1,
                        version := 1, content := none, size := 0,
                        updated_by := "x", deleted := false }],
          statements := [], sheets := [], next_id := 10 }
        "o1" 1 "colab-statement" 2 (.junk 3) (.num 2) "s/colabri-app").2
      = { documents := [],
          streams := [{ org := "o1", id := 2, name := "main", document := 1,
                        version := 1, content := some (.junk 3), size := 3,
                        updated_by := "s/colabri-app", deleted := false }],
          statements := [], sheets := [], next_id := 10 } := by
  have h := C4_update_colab_doc_amended
    { documents := [],
      streams := [{ org := "o1", id := 2, name := "main", document := 1,
                    version := 1, content := none, size := 0,
                    updated_by := "x", deleted := false }],
      statements := [], sheets := [], next_id := 10 }
    "o1" 1 "colab-statement" 2 (.junk 3) (.num 2) "s/colabri-app" (Or.inl rfl)
  exact ⟨h.1.mpr (by right; rfl), h.2.2⟩

/-! ### Periodic save and `last_updating_peer` (C7) -/

/-- C7 evaluated at a failing input: a room whose context carries
`last_updating_peer = some 7` is saved successfully (the store write
happens and the handler returns `Ok`), yet the room's stored context
still holds `some 7` afterwards — the handler cleared only its local
clone — and the immediately following tick issues another store write,
contradicting the claim that the save clears the stored
`last_updating_peer` and that the next tick performs no write. -/
theorem C7_save_does_not_clear_peer :
    ((hubSaveTick
        { doc := { peer_id := 55, oplog_vv := [(7, 1)], state_vv := [(7, 1)],
                   value := .null },
          ctx := some { org := "o1", doc_id := 1, doc_stream_id := 2,
                        peer_map := [(7, "o1/u/a")], last_updating_peer := some 7 } }
        "1"
        { documents := [],
          streams := [{ org := "o1", id := 2, name := "main", document := 1,
                        version := 1, content := none, size := 0,
                        updated_by := "x", deleted := false }],
          statements := [{ org := "o1", document := 1, json := none,
                           synced := true, updated_by := "x" }],
          sheets := [], next_id := 10 }).2.2.2 = .ok ())
    ∧ ((hubSaveTick
        { doc := { peer_id := 55, oplog_vv := [(7, 1)], state_vv := [(7, 1)],
                   value := .null },
          ctx := some { org := "o1", doc_id := 1, doc_stream_id := 2,
                        peer_map := [(7, "o1/u/a")], last_updating_peer := some 7 } }
        "1"
        { documents := [],
          streams := [{ org := "o1", id := 2, name := "main", document := 1,
                        version := 1, content := none, size := 0,
                        updated_by := "x", deleted := false }],
          statements := [{ org := "o1", document := 1, json := none,
                           synced := true, updated_by := "x" }],
          sheets := [], next_id := 10 }).2.2.1 = true)
    ∧ ((hubSaveTick
        { doc := { peer_id := 55, oplog_vv := [(7, 1)], state_vv := [(7, 1)],
                   value := .null },
          ctx := some { org := "o1", doc_id := 1, doc_stream_id := 2,
                        peer_map := [(7, "o1/u/a")], last_updating_peer := some 7 } }
        "1"
        { documents := [],
          streams := [{ org := "o1", id := 2, name := "main", document := 1,
                        version := 1, content := none, size := 0,
                        updated_by := "x", deleted := false }],
          statements := [{ org := "o1", document := 1, json := none,
                           synced := true, updated_by := "x" }],
          sheets := [], next_id := 10 }).1.ctx.map (fun c => c.last_updating_peer)
      = some (some 7))
    ∧ ((hubSaveTick
        { doc := { peer_id := 55, oplog_vv := [(7, 1)], state_vv := [(7, 1)],
                   value := .null },
          ctx := some { org := "o1", doc_id := 1, doc_stream_id := 2,
                        peer_map := [(7, "o1/u/a")], last_updating_peer := some 7 } }
        "1"
        ((hubSaveTick
          { doc := { peer_id := 55, oplog_vv := [(7, 1)], state_vv := [(7, 1)],
                     value := .null },
            ctx := some { org := "o1", doc_id := 1, doc_stream_id := 2,
                          peer_map := [(7, "o1/u/a")], last_updating_peer := some 7 } }
          "1"
          { documents := [],
            streams := [{ org := "o1", id := 2, name := "main", document := 1,
                          version := 1, content := none, size := 0,
                          updated_by := "x", deleted := false }],
            statements := [{ org := "o1", document := 1, json := none,
                             synced := true, updated_by := "x" }],
            sheets := [], next_id := 10 }).2.1)).2.2.1 = true) :=
  ⟨rfl, rfl, rfl, rfl⟩

/-! ### Room load (C6) -/

theorem select_main_go_spec (l : List StreamRow) (best : Option StreamRow) (hv : Int) :
    (select_main_go l best hv = best
      ∧ ∀ s ∈ l, ¬(s.name = "main" ∧ s.content ≠ none ∧ s.version > hv))
  ∨ (∃ b, select_main_go l best hv = some b ∧ b ∈ l ∧ b.name = "main"
      ∧ b.content ≠ none ∧ b.version > hv
      ∧ ∀ s ∈ l, s.name = "main" → s.content ≠ none → s.version ≤ b.version) := by
  induction l generalizing best hv with
  | nil => left; exact ⟨rfl, by simp⟩
  | cons s rest ih =>
      by_cases hcond : s.name = "main" ∧ s.version > hv
      · cases hcont : s.content with
        | none =>
            have hgo : select_main_go (s :: rest) best hv
                = select_main_go rest best hv := by
              simp [select_main_go, hcond.1, hcond.2, hcont]
            rcases ih best hv with ⟨heq, hnone⟩ | ⟨b, heq, hmem, hn, hc, hgt, hdom⟩
            · left
              refine ⟨hgo.trans heq, ?_⟩
              intro t ht
              rcases List.mem_cons.mp ht with h1 | h1
              · subst h1
                rintro ⟨_, hcne, _⟩
                exact hcne hcont
              · exact hnone t h1
            · right
              refine ⟨b, hgo.trans heq, List.mem_cons_of_mem _ hmem, hn, hc, hgt, ?_⟩
              intro t ht hname hcontne
              rcases List.mem_cons.mp ht with h1 | h1
              · subst h1; exact absurd hcont hcontne
              · exact hdom t h1 hname hcontne
        | some bytes =>
            have hgo : select_main_go (s :: rest) best hv
                = select_main_go rest (some s) s.version := by
              simp [select_main_go, hcond.1, hcond.2, hcont]
            rcases ih (some s) s.version with ⟨heq, hnone⟩ | ⟨b, heq, hmem, hn, hc, hgt, hdom⟩
            · right
              refine ⟨s, hgo.trans heq, List.mem_cons_self _ _, hcond.1,
                by simp [hcont], hcond.2, ?_⟩
              intro t ht hname hcontne
              rcases List.mem_cons.mp ht with h1 | h1
              · subst h1; exact le_refl _
              · by_contra hlt
                push_neg at hlt
                exact hnone t h1 ⟨hname, hcontne, hlt⟩
            · right
              refine ⟨b, hgo.trans heq, List.mem_cons_of_mem _ hmem, hn, hc,
                lt_trans hcond.2 hgt, ?_⟩
              intro t ht hname hcontne
              rcases List.mem_cons.mp ht with h1 | h1
              · subst h1; exact le_of_lt hgt
              · exact hdom t h1 hname hcontne
      · have hb : (s.name == "main" && decide (s.version > hv)) = false := by
          by_cases h1 : s.name = "main"
          · have h2 : ¬ s.version > hv := fun hh => hcond ⟨h1, hh⟩
            simp [h1, h2]
          · simp [h1]
        have hgo : select_main_go (s :: rest) best hv
            = select_main_go rest best hv := by
          simp [select_main_go, hb]
        rcases ih best hv with ⟨heq, hnone⟩ | ⟨b, heq, hmem, hn, hc, hgt, hdom⟩
        · left
          refine ⟨hgo.trans heq, ?_⟩
          intro t ht
          rcases List.mem_cons.mp ht with h1 | h1
          · subst h1
            rintro ⟨hn1, _, hv1⟩
            exact hcond ⟨hn1, hv1⟩
          · exact hnone t h1
        · right
          refine ⟨b, hgo.trans heq, List.mem_cons_of_mem _ hmem, hn, hc, hgt, ?_⟩
          intro t ht hname hcontne
          rcases List.mem_cons.mp ht with h1 | h1
          · subst h1
            have h2 : ¬ t.version > hv := fun hh => hcond ⟨hname, hh⟩
            exact le_of_lt (lt_of_le_of_lt (not_lt.mp h2) hgt)
          · exact hdom t h1 hname hcontne

/-- C6 counterexample: the document has a `"main"` stream with non-null
content, but its version is −1, which the selection loop (threshold −1,
strict comparison) skips; with no JSON model to fall back on, the load
fails with "No content found" instead of returning that stream. -/
theorem C6_load_counterexample :
    (∃ s ∈ [({ org := "o1", id := 2, name := "main", document := 1,
               version := -1, content := some (.junk 5), size := 0,
               updated_by := "x", deleted := false } : StreamRow)],
        s.name = "main" ∧ s.content ≠ none)
    ∧ (load_statement_doc
        { documents := [{ org := "o1", id := 1, doc_type := "colab-statement",
                          owner := "o1/u/o", deleted := false }],
          streams := [{ org := "o1", id := 2, name := "main", document := 1,
                        version := -1, content := some (.junk 5), size := 0,
                        updated_by := "x", deleted := false }],
          statements := [{ org := "o1", document := 1, json := none,
                           synced := true, updated_by := "x" }],
          sheets := [], next_id := 10 } "o1" 1).map (fun d => d.streams)
      = some [{ org := "o1", id := 2, name := "main", document := 1,
                version := -1, content := some (.junk 5), size := 0,
                updated_by := "x", deleted := false }]
    ∧ (on_load_document "o1" "1" 9
        { documents := [{ org := "o1", id := 1, doc_type := "colab-statement",
                          owner := "o1/u/o", deleted := false }],
          streams := [{ org := "o1", id := 2, name := "main", document := 1,
                        version := -1, content := some (.junk 5), size := 0,
                        updated_by := "x", deleted := false }],
          statements := [{ org := "o1", document := 1, json := none,
                           synced := true, updated_by := "x" }],
          sheets := [], next_id := 10 }).1 = .error "No content found" := by
  refine ⟨⟨_, List.mem_singleton.mpr rfl, rfl, by simp⟩, rfl, rfl⟩

/-- C6 amended: on room load, (a) if the document has a `"main"` stream
with non-null content and non-negative version, the loader returns the
one with the greatest version (decoding its stored package) and writes
nothing; (b) otherwise, if the document has a parseable JSON model, the
loader synthesizes a fresh CRDT document from it, persists it via
`insert_doc_stream` as a new `"main"` stream at version 1 whose package
seeds the service principal for the generating peer, and returns that
snapshot; (c) with neither a usable stream nor JSON, the load fails. -/
theorem C6_room_load_amended (org_id doc_id : String) (fresh_peer doc_uuid : Nat)
    (store : Store) (doc_data : ColabDocument)
    (hparse : parse_uuid doc_id = some doc_uuid)
    (hload : load_statement_doc store org_id doc_uuid = some doc_data) :
    ((∃ s ∈ doc_data.streams, s.name = "main" ∧ s.content ≠ none ∧ s.version > -1) →
      ∃ b, select_main_go doc_data.streams none (-1) = some b
        ∧ b ∈ doc_data.streams ∧ b.name = "main" ∧ b.content ≠ none
        ∧ (∀ s ∈ doc_data.streams, s.name = "main" → s.content ≠ none →
            s.version ≤ b.version)
        ∧ (on_load_document org_id doc_id fresh_peer store).2 = store
        ∧ (∀ pkg bytes, b.content = some bytes →
            serde_cbor_from_slice bytes = .ok pkg →
            (on_load_document org_id doc_id fresh_peer store).1
              = .ok { snapshot := some pkg.snapshot,
                      ctx := some { org := org_id, doc_id := doc_uuid,
                                    doc_stream_id := b.id,
                                    peer_map := pkg.peer_map,
                                    last_updating_peer := none } }))
  ∧ ((¬ ∃ s ∈ doc_data.streams, s.name = "main" ∧ s.content ≠ none ∧ s.version > -1) →
      ∀ j m, doc_data.json = some j → parse_stmt_model j = some m →
        (on_load_document org_id doc_id fresh_peer store).1
          = .ok { snapshot := some (stmt_to_loro_doc m fresh_peer),
                  ctx := some { org := org_id, doc_id := doc_uuid,
                                doc_stream_id := store.next_id,
                                peer_map := [(fresh_peer, "s/colabri-doc")],
                                last_updating_peer := some fresh_peer } }
        ∧ (on_load_document org_id doc_id fresh_peer store).2
          = { store with
                streams := store.streams ++
                  [{ org := org_id, id := store.next_id, name := "main",
                     document := doc_uuid, version := 1,
                     content := some (.pkg
                       { snapshot := stmt_to_loro_doc m fresh_peer,
                         peer_map := [(fresh_peer, "s/colabri-doc")] }),
                     size := 1, updated_by := "s/colabri-doc", deleted := false }],
                next_id := store.next_id + 1 })
  ∧ ((¬ ∃ s ∈ doc_data.streams, s.name = "main" ∧ s.content ≠ none ∧ s.version > -1) →
      doc_data.json = none →
      (on_load_document org_id doc_id fresh_peer store).1 = .error "No content found"
      ∧ (on_load_document org_id doc_id fresh_peer store).2 = store) := by
  refine ⟨?_, ?_, ?_⟩
  · rintro ⟨s0, hs0mem, hs0n, hs0c, hs0v⟩
    rcases select_main_go_spec doc_data.streams none (-1) with ⟨_, hnone⟩ |
      ⟨b, heq, hmem, hn, hc, _, hdom⟩
    · exact absurd ⟨hs0n, hs0c, hs0v⟩ (hnone s0 hs0mem)
    · refine ⟨b, heq, hmem, hn, hc, fun s hs h1 h2 => hdom s hs h1 h2, ?_, ?_⟩
      · cases hbc : b.content with
        | none => simp [on_load_document, hparse, hload, heq, hbc]
        | some bytes =>
            cases hdec : serde_cbor_from_slice bytes with
            | error e => simp [on_load_document, hparse, hload, heq, hbc, hdec]
            | ok pkg => simp [on_load_document, hparse, hload, heq, hbc, hdec]
      · intro pkg bytes hbc hdec
        simp [on_load_document, hparse, hload, heq, hbc, hdec]
  · intro hno j m hj hm
    have heq : select_main_go doc_data.streams none (-1) = none := by
      rcases select_main_go_spec doc_data.streams none (-1) with ⟨h1, _⟩ |
        ⟨b, _, hmem, hn, hc, hgt, _⟩
      · exact h1
      · exact absurd ⟨b, hmem, hn, hc, hgt⟩ hno
    constructor <;>
      simp [on_load_document, hparse, hload, heq, hj, hm, insert_doc_stream,
            stmt_to_loro_doc, serde_cbor_to_vec, blobSize]
  · intro hno hj
    have heq : select_main_go doc_data.streams none (-1) = none := by
      rcases select_main_go_spec doc_data.streams none (-1) with ⟨h1, _⟩ |
        ⟨b, _, hmem, hn, hc, hgt, _⟩
      · exact h1
      · exact absurd ⟨b, hmem, hn, hc, hgt⟩ hno
    constructor <;> simp [on_load_document, hparse, hload, heq, hj]

/-- Witness for C6: a document with no streams and the literal JSON
model of scenario S1 loads through the synthesis branch: the snapshot of
the synthesized document is returned, a version-1 `"main"` stream is
inserted, and the peer map binds the generating peer to the service
principal. -/
theorem C6_room_load_amended_witness :
    (on_load_document "o1" "1" 9
      { documents := [{ org := "o1", id := 1, doc_type := "colab-statement",
                        owner := "o1/u/o", deleted := false }],
        streams := [],
        statements := [{ org := "o1", document := 1,
                         json := some (.obj
                           [("properties", .obj [("type", .str "colab-statement"),
                                                 ("contentType", .str "x")]),
                            ("acls", .obj []), ("content", .obj [])]),
                         synced := true, updated_by := "x" }],
        sheets := [], next_id := 4 }).1
      = .ok { snapshot := some (stmt_to_loro_doc
                { properties := { model_type := .colabStatement, content_type := "x",
                                  country_codes := none, lang_codes := none },
                  acls := [], content := [] } 9),
              ctx := some { org := "o1", doc_id := 1, doc_stream_id := 4,
                            peer_map := [(9, "s/colabri-doc")],
                            last_updating_peer := some 9 } }
    ∧ ((on_load_document "o1" "1" 9
        { documents := [{ org := "o1", id := 1, doc_type := "colab-statement",
                          owner := "o1/u/o", deleted := false }],
          streams := [],
          statements := [{ org := "o1", document := 1,
                           json := some (.obj
                             [("properties", .obj [("type", .str "colab-statement"),
                                                   ("contentType", .str "x")]),
                              ("acls", .obj []), ("content", .obj [])]),
                           synced := true, updated_by := "x" }],
          sheets := [], next_id := 4 }).2).streams.map (fun s => (s.name, s.version))
      = [("main", 1)] := by
  have h := (C6_room_load_amended "o1" "1" 9 1
    { documents := [{ org := "o1", id := 1, doc_type := "colab-statement",
                      owner := "o1/u/o", deleted := false }],
      streams := [],
      statements := [{ org := "o1", document := 1,
                       json := some (.obj
                         [("properties", .obj [("type", .str "colab-statement"),
                                               ("contentType", .str "x")]),
                          ("acls", .obj []), ("content", .obj [])]),
                       synced := true, updated_by := "x" }],
      sheets := [], next_id := 4 }
    { id := 1, doc_type := "colab-statement", owner := "o1/u/o",
      json := some (.obj
        [("properties", .obj [("type", .str "colab-statement"),
                              ("contentType", .str "x")]),
         ("acls", .obj []), ("content", .obj [])]),
      streams := [] }
    rfl rfl).2.1 (by simp)
    (.obj [("properties", .obj [("type", .str "colab-statement"),
                                ("contentType", .str "x")]),
           ("acls", .obj []), ("content", .obj [])])
    { properties := { model_type := .colabStatement, content_type := "x",
                      country_codes := none, lang_codes := none },
      acls := [], content := [] }
    rfl rfl
  exact ⟨h.1, by rw [h.2]; rfl⟩

/-! ### Version checkout requests (C5) -/

/-- C5 counterexample: the store holds one `"main"` stream (version 2)
and a JSON model; a `POST version` request for the absent version 5, with
the room not open, falls through to the JSON synthesis branch of
`fetch_doc_snapshot_from_db`, which inserts a new stream row — the
request both succeeds and mutates the persisted document state. -/
theorem C5_version_mutates_counterexample :
    ((doc_version [] ["s/colabri-app"] "o1" "1"
      { version := 5, version_v := none, format := none } 9
      { documents := [{ org := "o1", id := 1, doc_type := "colab-statement",
                        owner := "o1/u/o", deleted := false }],
        streams := [{ org := "o1", id := 10, name := "main", document := 1,
                      version := 2,
                      content := some (.pkg
                        { snapshot := { peer_id := 3, oplog_vv := [(3, 2)],
                                        state_vv := [(3, 2)], value := .null },
                          peer_map := [(3, "o1/u/a")] }),
                      size := 1, updated_by := "x", deleted := false }],
        statements := [{ org := "o1", document := 1,
                         json := some (.obj
                           [("properties", .obj [("type", .str "colab-statement"),
                                                 ("contentType", .str "x")]),
                            ("acls", .obj []), ("content", .obj [])]),
                         synced := true, updated_by := "x" }],
        sheets := [], next_id := 11 }).2).streams.length = 2
    ∧ ([({ org := "o1", id := 10, name := "main", document := 1, version := 2,
           content := some (.pkg
             { snapshot := { peer_id := 3, oplog_vv := [(3, 2)],
                             state_vv := [(3, 2)], value := .null },
               peer_map := [(3, "o1/u/a")] }),
           size := 1, updated_by := "x", deleted := false } : StreamRow)]).length = 1
    ∧ ∃ resp, (doc_version [] ["s/colabri-app"] "o1" "1"
        { version := 5, version_v := none, format := none } 9
        { documents := [{ org := "o1", id := 1, doc_type := "colab-statement",
                          owner := "o1/u/o", deleted := false }],
          streams := [{ org := "o1", id := 10, name := "main", document := 1,
                        version := 2,
                        content := some (.pkg
                          { snapshot := { peer_id := 3, oplog_vv := [(3, 2)],
                                          state_vv := [(3, 2)], value := .null },
                            peer_map := [(3, "o1/u/a")] }),
                        size := 1, updated_by := "x", deleted := false }],
          statements := [{ org := "o1", document := 1,
                           json := some (.obj
                             [("properties", .obj [("type", .str "colab-statement"),
                                                   ("contentType", .str "x")]),
                              ("acls", .obj []), ("content", .obj [])]),
                           synced := true, updated_by := "x" }],
          sheets := [], next_id := 11 }).1 = .ok resp :=
  ⟨rfl, rfl, ⟨_, rfl⟩⟩

/-- C5 amended: a `POST version` request whose targeted room is not open
at the requested version and whose requested version exists in the store
as a `"main"` stream with non-null, decodable content performs no store
write: the store after the request is unchanged, the response is served
from the stored package, and a subsequent `GET latest` over that store
returns exactly what it returned before the request.  When the requested
version is absent but the document has a JSON model, the handler instead
inserts a fresh version-1 `"main"` stream (the counterexample). -/
theorem C5_version_request_amended (registry : HubRegistryM) (prpls : List String)
    (org_id doc_id : String) (request : DocumentVersionRequest) (fresh_peer : Nat)
    (store : Store) (doc_uuid : Nat) (doc_data : ColabDocument) (row : StreamRow)
    (bytes : Blob) (pkg : ColabPackage) (fmt : OutputFormat) (sp : String)
    (hfmt : output_format_from_query request.format = .ok fmt)
    (hsvc : ensure_service prpls "colabri-app" = .ok sp)
    (hparse : parse_uuid doc_id = some doc_uuid)
    (hmem : hub_room_lookup registry org_id doc_id request.version = none)
    (hload : load_colab_doc store org_id doc_uuid = some doc_data)
    (hsel : select_version_stream doc_data.streams ((request.version : Nat) : Int)
              = some row)
    (hbytes : row.content = some bytes)
    (hdec : serde_cbor_from_slice bytes = .ok pkg) :
    (doc_version registry prpls org_id doc_id request fresh_peer store).2 = store
    ∧ (doc_version registry prpls org_id doc_id request fresh_peer store).1
        = .ok (doc_version_serve pkg.snapshot pkg.peer_map request.version
                request.version_v fmt)
    ∧ ∀ (fmt2 : Option String) (fp2 : Nat),
        doc_latest registry prpls org_id doc_id fmt2 fp2
            ((doc_version registry prpls org_id doc_id request fresh_peer store).2)
          = doc_latest registry prpls org_id doc_id fmt2 fp2 store := by
  have hfetch : fetch_doc_snapshot_from_db org_id doc_id (some request.version)
      fresh_peer store
      = (.ok (some (pkg.snapshot,
          { org := org_id, doc_id := doc_uuid, doc_stream_id := row.id,
            doc_version := ((request.version : Nat) : Int),
            doc_owner := doc_data.owner, peer_map := pkg.peer_map,
            last_updating_peer := none })), store) := by
    simp [fetch_doc_snapshot_from_db, hparse, hload, hsel, hbytes, hdec]
  have h2 : doc_version registry prpls org_id doc_id request fresh_peer store
      = (.ok (doc_version_serve pkg.snapshot pkg.peer_map request.version
          request.version_v fmt), store) := by
    simp [doc_version, hfmt, hsvc, hparse, hmem, hfetch]
  refine ⟨by rw [h2], by rw [h2], ?_⟩
  intro fmt2 fp2
  rw [h2]

/-- Witness for C5 amended: requesting the version that exists (2) on the
counterexample's store leaves the store unchanged and serves the stored
package. -/
theorem C5_version_request_amended_witness :
    (doc_version [] ["s/colabri-app"] "o1" "1"
      { version := 2, version_v := none, format := none } 9
      { documents := [{ org := "o1", id := 1, doc_type := "colab-statement",
                        owner := "o1/u/o", deleted := false }],
        streams := [{ org := "o1", id := 10, name := "main", document := 1,
                      version := 2,
                      content := some (.pkg
                        { snapshot := { peer_id := 3, oplog_vv := [(3, 2)],
                                        state_vv := [(3, 2)], value := .null },
                          peer_map := [(3, "o1/u/a")] }),
                      size := 1, updated_by := "x", deleted := false }],
        statements := [{ org := "o1", document := 1,
                         json := some (.obj
                           [("properties", .obj [("type", .str "colab-statement"),
                                                 ("contentType", .str "x")]),
                            ("acls", .obj []), ("content", .obj [])]),
                         synced := true, updated_by := "x" }],
        sheets := [], next_id := 11 }).2
      = { documents := [{ org := "o1", id := 1, doc_type := "colab-statement",
                          owner := "o1/u/o", deleted := false }],
          streams := [{ org := "o1", id := 10, name := "main", document := 1,
                        version := 2,
                        content := some (.pkg
                          { snapshot := { peer_id := 3, oplog_vv := [(3, 2)],
                                          state_vv := [(3, 2)], value := .null },
                            peer_map := [(3, "o1/u/a")] }),
                        size := 1, updated_by := "x", deleted := false }],
          statements := [{ org := "o1", document := 1,
                           json := some (.obj
                             [("properties", .obj [("type", .str "colab-statement"),
                                                   ("contentType", .str "x")]),
                              ("acls", .obj []), ("content", .obj [])]),
                           synced := true, updated_by := "x" }],
          sheets := [], next_id := 11 }
    ∧ (doc_version [] ["s/colabri-app"] "o1" "1"
        { version := 2, version_v := none, format := none } 9
        { documents := [{ org := "o1", id := 1, doc_type := "colab-statement",
                          owner := "o1/u/o", deleted := false }],
          streams := [{ org := "o1", id := 10, name := "main", document := 1,
                        version := 2,
                        content := some (.pkg
                          { snapshot := { peer_id := 3, oplog_vv := [(3, 2)],
                                          state_vv := [(3, 2)], value := .null },
                            peer_map := [(3, "o1/u/a")] }),
                        size := 1, updated_by := "x", deleted := false }],
          statements := [{ org := "o1", document := 1,
                           json := some (.obj
                             [("properties", .obj [("type", .str "colab-statement"),
                                                   ("contentType", .str "x")]),
                              ("acls", .obj []), ("content", .obj [])]),
                           synced := true, updated_by := "x" }],
          sheets := [], next_id := 11 }).1
      = .ok (doc_version_serve
          { peer_id := 3, oplog_vv := [(3, 2)], state_vv := [(3, 2)], value := .null }
          [(3, "o1/u/a")] 2 none .json) := by
  have h := C5_version_request_amended [] ["s/colabri-app"] "o1" "1"
    { version := 2, version_v := none, format := none } 9
    { documents := [{ org := "o1", id := 1, doc_type := "colab-statement",
                      owner := "o1/u/o", deleted := false }],
      streams := [{ org := "o1", id := 10, name := "main", document := 1,
                    version := 2,
                    content := some (.pkg
                      { snapshot := { peer_id := 3, oplog_vv := [(3, 2)],
                                      state_vv := [(3, 2)], value := .null },
                        peer_map := [(3, "o1/u/a")] }),
                    size := 1, updated_by := "x", deleted := false }],
      statements := [{ org := "o1", document := 1,
                       json := some (.obj
                         [("properties", .obj [("type", .str "colab-statement"),
                                               ("contentType", .str "x")]),
                          ("acls", .obj []), ("content", .obj [])]),
                       synced := true, updated_by := "x" }],
      sheets := [], next_id := 11 }
    1
    { id := 1, doc_type := "colab-statement", owner := "o1/u/o",
      json := some (.obj
        [("properties", .obj [("type", .str "colab-statement"),
                              ("contentType", .str "x")]),
         ("acls", .obj []), ("content", .obj [])]),
      streams := [{ org := "o1", id := 10, name := "main", document := 1,
                    version := 2,
                    content := some (.pkg
                      { snapshot := { peer_id := 3, oplog_vv := [(3, 2)],
                                      state_vv := [(3, 2)], value := .null },
                        peer_map := [(3, "o1/u/a")] }),
                    size := 1, updated_by := "x", deleted := false }] }
    { org := "o1", id := 10, name := "main", document := 1, version := 2,
      content := some (.pkg
        { snapshot := { peer_id := 3, oplog_vv := [(3, 2)],
                        state_vv := [(3, 2)], value := .null },
          peer_map := [(3, "o1/u/a")] }),
      size := 1, updated_by := "x", deleted := false }
    (.pkg { snapshot := { peer_id := 3, oplog_vv := [(3, 2)],
                          state_vv := [(3, 2)], value := .null },
            peer_map := [(3, "o1/u/a")] })
    { snapshot := { peer_id := 3, oplog_vv := [(3, 2)],
                    state_vv := [(3, 2)], value := .null },
      peer_map := [(3, "o1/u/a")] }
    .json "s/colabri-app" rfl rfl rfl rfl rfl rfl rfl rfl
  exact ⟨h.1, h.2.1⟩

end Colabri
